import Mathlib

/-!
# Verification of the libsystemd-bus core (`src/libsystemd-bus/sd-bus.c`)

Shallow embedding of the connection/send/reply/object-tree logic of
`sd-bus.c`, together with theorems settling the frozen claims about it.

Conventions of the embedding:
* C functions returning `int` (negative errno on failure) become Lean
  functions returning `Int` (paired with the updated `Bus` state where the
  C mutates the bus).
* The ambient `getpid()` is passed as an explicit `pid : Nat` argument to
  every public entry point (the creation pid is stored in the bus).
* Memory allocation never fails in the model (`new0`, `strdup`,
  `hashmap_ensure_allocated` are modelled as total); the only injected
  failure points are the ones a claim is about (`prioq_put`, transport
  reads/writes), which become explicit oracle parameters.
* External collaborators (socket/kernel transport, message codec) are
  modelled by their observable result codes, passed in as parameters.
-/

namespace SdBus

/-! ## Errno constants (Linux values, returned negated as in the C code) -/

def EPERM : Int := 1
def ENOENT : Int := 2
def ECHILD : Int := 10
def ENOMEM : Int := 12
def EBUSY : Int := 16
def EEXIST : Int := 17
def EINVAL : Int := 22
def EDOM : Int := 33
def ENOSYS : Int := 38
def EPROTOTYPE : Int := 91
def ENOTSUP : Int := 95
def ENOBUFS : Int := 105
def ENOTCONN : Int := 107

/-! ## Connection state machine -/

/-- The `enum bus_state` of the connection
(`BUS_UNSET`, `BUS_OPENING`, `BUS_AUTHENTICATING`, `BUS_HELLO`,
`BUS_RUNNING`, `BUS_CLOSED`). -/
inductive BusState where
  | unset
  | opening
  | authenticating
  | hello
  | running
  | closed
deriving DecidableEq, Repr

/-- Modelled from the spec: the macro `BUS_IS_OPEN` lives in
`bus-internal.h` (not under `src/`); per the spec it holds in any state
except Unset and Closed. -/
def BUS_IS_OPEN (s : BusState) : Bool :=
  s != BusState.unset && s != BusState.closed

/-! ## Messages -/

/-- D-Bus message types used by the core. -/
inductive MsgType where
  | methodCall
  | methodReturn
  | methodError
  | signal
deriving DecidableEq, Repr

/-- Header flag bit `SD_BUS_MESSAGE_NO_REPLY_EXPECTED`.  The numeric value
comes from the public header (not under `src/`); only its identity as a
distinct bit matters here. -/
def SD_BUS_MESSAGE_NO_REPLY_EXPECTED : Nat := 1

/-- An `sd_bus_message` as seen by the core of `sd-bus.c`: the header
fields the dispatch and send paths inspect, plus an opaque `encoding`
payload standing for the marshalled body (the codec itself is out of
scope).  `serial = 0` means no serial assigned yet. -/
structure Message where
  type : MsgType := MsgType.methodCall
  headerVersion : Nat := 1
  serial : Nat := 0
  sealed : Bool := false
  flags : Nat := 0
  dontSend : Bool := false
  nFds : Nat := 0
  size : Nat := 1
  replySerial : Nat := 0
  errorName : String := ""
  encoding : Nat := 0
deriving DecidableEq, Repr

/-- The macro `BUS_MESSAGE_SERIAL` (header accessor, outside `src/`):
reads the serial stored in the message header. -/
def BUS_MESSAGE_SERIAL (m : Message) : Nat := m.serial

/-- The macro `BUS_MESSAGE_SIZE` (outside `src/`): total encoded size of
the message, modelled as the opaque `size` field. -/
def BUS_MESSAGE_SIZE (m : Message) : Nat := m.size

/-- Modelled from the spec: `bus_message_seal` lives in the message codec
(`bus-message.c`, not under `src/`).  Per the spec it stores the serial
and locks the encoding; the encoding itself is left untouched. -/
def bus_message_seal (m : Message) (serial : Nat) : Message :=
  { m with serial := serial, sealed := true }

/-- Modelled from the spec: `bus_message_new_synthetic_error`
(`bus-message.c`, not under `src/`) builds a method-error message whose
reply serial is the given serial and whose error name is the given one. -/
def bus_message_new_synthetic_error (serial : Nat) (name : String) : Message :=
  { type := MsgType.methodError, replySerial := serial, errorName := name,
    sealed := true, serial := 1 }

/-! ## Reply callbacks and the timeout priority queue -/

/-- C `struct reply_callback`: callback (identified by an opaque id),
userdata, the serial it is keyed by, the absolute deadline (`timeout`,
`0` meaning none), and its heap index (implicit in the list model). -/
structure ReplyCallback where
  cb : Nat
  userdata : Nat := 0
  serial : Nat
  timeout : Nat := 0
deriving DecidableEq, Repr

/-- Comparator `timeout_compare`: zero deadlines sort after all others; otherwise
smaller deadline first.  Returns the C comparator result. -/
def timeout_compare (x y : ReplyCallback) : Int :=
  if x.timeout != 0 && y.timeout == 0 then -1
  else if x.timeout == 0 && y.timeout != 0 then 1
  else if x.timeout < y.timeout then -1
  else if x.timeout > y.timeout then 1
  else 0

/-- The prioq is modelled as a list kept sorted by `timeout_compare`
(stable insertion), so the head is the element `prioq_peek` returns. -/
def prioq_put (c : ReplyCallback) : List ReplyCallback → List ReplyCallback
  | [] => [c]
  | x :: xs => if timeout_compare c x < 0 then c :: x :: xs else x :: prioq_put c xs

def prioq_peek (q : List ReplyCallback) : Option ReplyCallback := q.head?

def prioq_pop (q : List ReplyCallback) : List ReplyCallback := q.tail

def prioq_remove (c : ReplyCallback) (q : List ReplyCallback) : List ReplyCallback :=
  q.eraseP (· == c)

/-- The reply-callback hashmap keyed by serial, as an association list.
`hashmap_put` fails with `-EEXIST` when the key is present. -/
abbrev ReplyMap := List (Nat × ReplyCallback)

def hashmap_get_reply (h : ReplyMap) (serial : Nat) : Option ReplyCallback :=
  (h.find? (fun kv => kv.1 == serial)).map (·.2)

def hashmap_put_reply (h : ReplyMap) (serial : Nat) (c : ReplyCallback) :
    Int × ReplyMap :=
  if (hashmap_get_reply h serial).isSome then (-EEXIST, h) else (1, (serial, c) :: h)

def hashmap_remove_reply (h : ReplyMap) (serial : Nat) : ReplyMap :=
  h.eraseP (fun kv => kv.1 == serial)

/-! ## Object tree -/

/-- C `struct node_callback`: a raw message handler attached to a path. -/
structure NodeCallback where
  cb : Nat
  userdata : Nat := 0
  isFallback : Bool := false
deriving DecidableEq, Repr

/-- Flags of a vtable entry.  The numeric bits are defined in the public
vtable header (not under `src/`); they are modelled as booleans. -/
structure VtableFlags where
  emitsChange : Bool := false
  invalidateOnly : Bool := false
  methodNoReply : Bool := false
deriving DecidableEq, Repr

/-- One `sd_bus_vtable` array entry.  Property getters are external
callbacks; they are modelled by the value they write (`getVal`). -/
inductive VtableEntry where
  | start
  | method (member signature result : String) (hasHandler : Bool) (flags : VtableFlags)
  | property (member signature : String) (flags : VtableFlags) (getVal : Nat)
  | writableProperty (member signature : String) (flags : VtableFlags) (getVal : Nat)
  | signal (member signature : String) (flags : VtableFlags)
  | fin
deriving DecidableEq, Repr

/-- C `struct node_vtable`: an interface implementation registered at a
node.  The optional `find` resolver is modelled by `hasFind` plus the
result code it returns (`findRet`); when it succeeds the resolved
userdata is the registered one. -/
structure NodeVtableReg where
  interface : String
  isFallback : Bool
  entries : List VtableEntry
  userdata : Nat := 0
  hasFind : Bool := false
  findRet : Int := 1
deriving DecidableEq, Repr

/-- C `struct node`: a path-addressable entry of the object tree.  The
parent is stored by path (resolved through the `nodes` table) and the
child list holds the children's paths. -/
structure Node where
  parent : Option String := none
  children : List String := []
  callbacks : List NodeCallback := []
  vtables : List NodeVtableReg := []
  enumerators : List Nat := []
  objectManager : Bool := false
deriving DecidableEq, Repr

abbrev Nodes := List (String × Node)

def nodes_get (ns : Nodes) (p : String) : Option Node :=
  (ns.find? (fun kv => kv.1 == p)).map (·.2)

def nodes_set (ns : Nodes) (p : String) (n : Node) : Nodes :=
  if (nodes_get ns p).isSome then
    ns.map (fun kv => if kv.1 == p then (p, n) else kv)
  else
    (p, n) :: ns

def nodes_remove (ns : Nodes) (p : String) : Nodes :=
  ns.eraseP (fun kv => kv.1 == p)

/-- Keys of the connection-wide member indexes `vtable_methods` /
`vtable_properties`: the triple (path, interface, member). -/
abbrev VKey := String × String × String

/-- C `struct vtable_member` as stored in the property index: the flags,
signature and (modelled) getter value of the referenced vtable entry. -/
structure VMember where
  flags : VtableFlags
  signature : String := ""
  getVal : Nat := 0
deriving DecidableEq, Repr

abbrev VIndex := List (VKey × VMember)

def vindex_get (h : VIndex) (k : VKey) : Option VMember :=
  (h.find? (fun kv => kv.1 == k)).map (·.2)

def vindex_put (h : VIndex) (k : VKey) (v : VMember) : Int × VIndex :=
  if (vindex_get h k).isSome then (-EEXIST, h) else (1, (k, v) :: h)

/-! ## The connection -/

/-- C `struct sd_bus` (declared in `bus-internal.h`, fields as used by
`sd-bus.c`): connection state, configuration, queues, serial counter,
reply tracking and the object tree.

Modelled from the spec: the width of the outgoing serial counter is not
visible under `src/` (the field lives in `bus-internal.h`); per the
spec's data model it wraps at `2^32 - 1`. -/
structure Bus where
  state : BusState := BusState.unset
  originalPid : Nat := 1
  serial : Nat := 0
  messageVersion : Nat := 1
  isServer : Bool := false
  busClient : Bool := false
  isKernel : Bool := false
  canFds : Bool := false
  inputFd : Option Nat := none
  address : Option String := none
  sockaddrSet : Bool := false
  execPath : Option String := none
  kernel : Option String := none
  wqueue : List Message := []
  windex : Nat := 0
  rqueue : List Message := []
  replyCallbacks : ReplyMap := []
  replyCallbacksPrioq : List ReplyCallback := []
  nodes : Nodes := []
  vtableMethods : VIndex := []
  vtableProperties : VIndex := []
  processing : Bool := false
deriving DecidableEq, Repr

/-- Serial-counter modulus (see the `Bus` doc comment). -/
def SERIAL_MOD : Nat := 2 ^ 32

/-- Constant `BUS_WQUEUE_MAX` (value from `bus-internal.h`, not under `src/`; the
exact bound is irrelevant to the claims). -/
def BUS_WQUEUE_MAX : Nat := 1024

/-- Function `bus_pid_changed`: the connection must not be used after a fork. -/
def bus_pid_changed (bus : Bus) (pid : Nat) : Bool :=
  bus.originalPid != pid

/-! ## Sealing and the send path -/

/-- Function `bus_seal_message` (sd-bus.c:1174): reject messages whose header
version exceeds the connection's; leave sealed messages alone; otherwise
assign serial `++b->serial` and seal.  Note the version check precedes
the sealed check, and the increment is a plain increment (wrapping, no
skip of zero). -/
def bus_seal_message (b : Bus) (m : Message) : Int × Bus × Message :=
  if m.headerVersion > b.messageVersion then (-EPERM, b, m)
  else if m.sealed then (0, b, m)
  else
    let s := (b.serial + 1) % SERIAL_MOD
    (0, { b with serial := s }, bus_message_seal m s)

/-- Observable effect of one `sd_bus_send` call. -/
structure SendEff where
  wrote : Bool := false
deriving DecidableEq, Repr

/-- Function `sd_bus_send` (sd-bus.c:1266).  `wantSerial` models whether the
`serial` out-parameter is non-null; the returned `Option Nat` is the
value written through it.  `wres`/`widx` are the result and byte cursor
the transport write would produce (`bus_socket_write_message` /
`bus_kernel_write_message` are external). -/
def sd_bus_send (pid : Nat) (wres : Int) (widx : Nat) (bus : Bus) (m : Message)
    (wantSerial : Bool) : Int × Bus × Option Nat × SendEff :=
  if !BUS_IS_OPEN bus.state then (-ENOTCONN, bus, none, {})
  else if bus_pid_changed bus pid then (-ECHILD, bus, none, {})
  else if m.nFds > 0 && !bus.canFds then (-ENOTSUP, bus, none, {})
  else
    -- if the serial number is not kept, no reply is expected
    let m := if !wantSerial && !m.sealed then
        { m with flags := m.flags ||| SD_BUS_MESSAGE_NO_REPLY_EXPECTED }
      else m
    match bus_seal_message bus m with
    | (r, bus1, m1) =>
      if r < 0 then (r, bus1, none, {})
      -- a reply nobody asked for is suppressed
      else if m1.dontSend && !wantSerial then (0, bus1, none, {})
      else if (bus1.state == BusState.running || bus1.state == BusState.hello)
              && bus1.wqueue.length == 0 then
        -- fast path: direct write
        if wres < 0 then (wres, { bus1 with state := BusState.closed }, none, {wrote := true})
        else if !bus1.isKernel && widx < BUS_MESSAGE_SIZE m1 then
          let bus2 := { bus1 with wqueue := [m1], windex := widx }
          (0, bus2, if wantSerial then some (BUS_MESSAGE_SERIAL m1) else none, {wrote := true})
        else
          (0, bus1, if wantSerial then some (BUS_MESSAGE_SERIAL m1) else none, {wrote := true})
      else
        -- slow path: append to the write queue
        if bus1.wqueue.length ≥ BUS_WQUEUE_MAX then (-ENOBUFS, bus1, none, {})
        else
          let bus2 := { bus1 with wqueue := bus1.wqueue ++ [m1] }
          (0, bus2, if wantSerial then some (BUS_MESSAGE_SERIAL m1) else none, {})

/-- Iterated sends with a fully-succeeding transport (idle bus), keeping
the serial each call reports. -/
def sendSeq (pid : Nat) (bus : Bus) : List Message → Bus × List (Int × Option Nat)
  | [] => (bus, [])
  | m :: ms =>
    match sd_bus_send pid 1 (BUS_MESSAGE_SIZE m) bus m true with
    | (r, bus1, s, _) =>
      let rest := sendSeq pid bus1 ms
      (rest.1, (r, s) :: rest.2)

end SdBus

namespace SdBus

/-! ## Reply correlation (`send_with_reply`, cancel) -/

/-- Constant `BUS_DEFAULT_TIMEOUT` (value from `bus-internal.h`, not under `src/`;
only its non-zeroness matters to the claims). -/
def BUS_DEFAULT_TIMEOUT : Nat := 25 * 1000 * 1000

/-- Function `calc_elapse` (sd-bus.c:1343): `none` models `(uint64_t) -1`
(no timeout, encoded as deadline `0`); `some 0` picks the default. -/
def calc_elapse (now : Nat) : Option Nat → Nat
  | none => 0
  | some usec => now + (if usec = 0 then BUS_DEFAULT_TIMEOUT else usec)

/-- Function `sd_bus_send_with_reply_cancel` (sd-bus.c:1444): remove the callback
for `serial` from the reply table and, when it has a deadline, from the
priority queue; idempotent. -/
def sd_bus_send_with_reply_cancel (pid : Nat) (bus : Bus) (serial : Nat) :
    Int × Bus :=
  if serial == 0 then (-EINVAL, bus)
  else if bus_pid_changed bus pid then (-ECHILD, bus)
  else
    match hashmap_get_reply bus.replyCallbacks serial with
    | none => (0, bus)
    | some c =>
      let bus1 := { bus with
        replyCallbacks := hashmap_remove_reply bus.replyCallbacks serial }
      let bus2 := if c.timeout != 0 then
          { bus1 with replyCallbacksPrioq := prioq_remove c bus1.replyCallbacksPrioq }
        else bus1
      (1, bus2)

/-- Function `sd_bus_send_with_reply` (sd-bus.c:1371).  `prioqOk` injects the only
failure `prioq_put` can produce (allocation); `wres`/`widx` are the
transport-write outcome forwarded to `sd_bus_send`.  On a prioq failure
the C sets the stored callback's `timeout` to `0` before cancelling (so
the cancel skips the queue it was never inserted into). -/
def sd_bus_send_with_reply (pid : Nat) (now : Nat) (prioqOk : Bool)
    (wres : Int) (widx : Nat) (bus : Bus) (m : Message) (cb : Nat)
    (userdata : Nat) (usec : Option Nat) (wantSerial : Bool) :
    Int × Bus × Option Nat :=
  if !BUS_IS_OPEN bus.state then (-ENOTCONN, bus, none)
  else if cb == 0 then (-EINVAL, bus, none)
  else if m.type != MsgType.methodCall then (-EINVAL, bus, none)
  else if m.flags &&& SD_BUS_MESSAGE_NO_REPLY_EXPECTED != 0 then (-EINVAL, bus, none)
  else if bus_pid_changed bus pid then (-ECHILD, bus, none)
  else
    match bus_seal_message bus m with
    | (r, bus1, m1) =>
      if r < 0 then (r, bus1, none)
      else
        let c : ReplyCallback :=
          { cb := cb, userdata := userdata, serial := BUS_MESSAGE_SERIAL m1,
            timeout := calc_elapse now usec }
        match hashmap_put_reply bus1.replyCallbacks c.serial c with
        | (pr, rmap) =>
          if pr < 0 then (pr, bus1, none)
          else
            let bus2 := { bus1 with replyCallbacks := rmap }
            if c.timeout != 0 && !prioqOk then
              -- prioq_put failed: zero the stored deadline, then cancel
              let bus3 := { bus2 with replyCallbacks :=
                (c.serial, { c with timeout := 0 }) ::
                  hashmap_remove_reply bus2.replyCallbacks c.serial }
              (-ENOMEM, (sd_bus_send_with_reply_cancel pid bus3 c.serial).2, none)
            else
              let bus3 := if c.timeout != 0 then
                  { bus2 with replyCallbacksPrioq := prioq_put c bus2.replyCallbacksPrioq }
                else bus2
              match sd_bus_send pid wres widx bus3 m1 wantSerial with
              | (sr, bus4, outSerial, _) =>
                if sr < 0 then (sr, (sd_bus_send_with_reply_cancel pid bus4 c.serial).2, none)
                else (sr, bus4, outSerial)

/-! ## Timeout processing and the dispatch loop -/

/-- One reply-callback invocation: which callback ran, and the message it
was handed (its type, error name and reply serial). -/
structure Invocation where
  cb : Nat
  userdata : Nat
  msgType : MsgType
  errorName : String
  replySerial : Nat
deriving DecidableEq, Repr

/-- Function `process_timeout` (sd-bus.c:1693): when the prioq top's deadline has
passed, synthesize a Timeout method-error, remove the entry from both
structures, invoke the callback once.  `cbRet` gives each callback's
return value. -/
def process_timeout (cbRet : Nat → Int) (now : Nat) (bus : Bus) :
    Int × Bus × List Invocation :=
  match prioq_peek bus.replyCallbacksPrioq with
  | none => (0, bus, [])
  | some c =>
    if c.timeout > now then (0, bus, [])
    else
      let m := bus_message_new_synthetic_error c.serial "org.freedesktop.DBus.Error.Timeout"
      let bus1 := { bus with
        replyCallbacksPrioq := prioq_pop bus.replyCallbacksPrioq,
        replyCallbacks := hashmap_remove_reply bus.replyCallbacks c.serial }
      let r := cbRet c.cb
      (if r < 0 then r else 1, bus1,
       [⟨c.cb, c.userdata, m.type, m.errorName, m.replySerial⟩])

/-- Function `dispatch_wqueue` (sd-bus.c:1186): write the queue head repeatedly;
each oracle entry is one transport-write outcome `(r, windex)`; an
exhausted oracle behaves as would-block (`r = 0`).  Also returns the
number of transport writes attempted. -/
def dispatch_wqueue (bus : Bus) (ret : Int) : List (Int × Nat) → Int × Bus × Nat
  | [] => (ret, bus, 0)
  | (r, widx) :: rest =>
    match bus.wqueue with
    | [] => (ret, bus, 0)
    | m :: q =>
      if r < 0 then (r, { bus with state := BusState.closed }, 1)
      else if r == 0 then (ret, bus, 1)
      else
        let bus1 := { bus with windex := widx }
        if bus1.isKernel || BUS_MESSAGE_SIZE m ≤ bus1.windex then
          let next := dispatch_wqueue { bus1 with wqueue := q, windex := 0 } 1 rest
          (next.1, next.2.1, next.2.2 + 1)
        else
          let next := dispatch_wqueue bus1 ret rest
          (next.1, next.2.1, next.2.2 + 1)

/-- The read loop of `dispatch_rqueue` (sd-bus.c:1246): read until a
message materializes or the transport reports would-block/error; each
oracle entry is one transport-read outcome.  Returns `(r, bus, msg,
reads attempted)`. -/
def dispatch_rqueue_reads (bus : Bus) (ret : Int) :
    List (Int × Option Message) → Int × Bus × Option Message × Nat
  | [] => (ret, bus, none, 0)
  | (r, z) :: rest =>
    if r < 0 then (r, { bus with state := BusState.closed }, none, 1)
    else if r == 0 then (ret, bus, none, 1)
    else
      match z with
      | some m => (1, bus, some m, 1)
      | none =>
        let next := dispatch_rqueue_reads bus 1 rest
        (next.1, next.2.1, next.2.2.1, next.2.2.2 + 1)

/-- Function `dispatch_rqueue` (sd-bus.c:1228): pop the queued head if any,
otherwise read from the transport. -/
def dispatch_rqueue (bus : Bus) (rO : List (Int × Option Message)) :
    Int × Bus × Option Message × Nat :=
  match bus.rqueue with
  | m :: rest => (1, { bus with rqueue := rest }, some m, 0)
  | [] => dispatch_rqueue_reads bus 0 rO

/-- Observable effects of one `process_running` pass. -/
structure RunEff where
  timeoutInv : List Invocation := []
  writes : Nat := 0
  reads : Nat := 0
  dispatched : Bool := false
deriving DecidableEq, Repr

/-- Function `process_running` (sd-bus.c:2905): timeouts first, then the write
queue, then obtain one inbound message, then the handler chain.  The
handler chain (`process_message`, sd-bus.c:2860) is abstracted as the
parameter `pm`; `replyRes` is the outcome of the synthesized
UnknownObject reply send at the end. -/
def process_running (cbRet : Nat → Int) (now : Nat) (wO : List (Int × Nat))
    (rO : List (Int × Option Message)) (pm : Bus → Message → Int × Bus)
    (replyRes : Int) (wantRet : Bool) (bus : Bus) :
    Int × Bus × Option Message × RunEff :=
  match process_timeout cbRet now bus with
  | (r, bus1, inv) =>
    if r != 0 then (r, bus1, none, { timeoutInv := inv })
    else
      match dispatch_wqueue bus1 0 wO with
      | (r2, bus2, w) =>
        if r2 != 0 then (r2, bus2, none, { timeoutInv := inv, writes := w })
        else
          match dispatch_rqueue bus2 rO with
          | (r3, bus3, om, rd) =>
            let eff : RunEff := { timeoutInv := inv, writes := w, reads := rd }
            if r3 < 0 then (r3, bus3, none, eff)
            else
              match om with
              | none => (r3, bus3, none, eff)
              | some m =>
                match pm bus3 m with
                | (r4, bus4) =>
                  let eff := { eff with dispatched := true }
                  if r4 != 0 then (r4, bus4, none, eff)
                  else if wantRet then (1, bus4, some m, eff)
                  else if m.type == MsgType.methodCall then
                    if replyRes < 0 then (replyRes, bus4, none, eff)
                    else (1, bus4, none, eff)
                  else (1, bus4, none, eff)

/-- Function `sd_bus_process` (sd-bus.c:2959): pid and re-entry guards, then the
per-state step.  The Opening/Authenticating transport drivers are
external; their result codes are `openRes`/`authRes`. -/
def sd_bus_process (pid : Nat) (cbRet : Nat → Int) (now : Nat)
    (wO : List (Int × Nat)) (rO : List (Int × Option Message))
    (pm : Bus → Message → Int × Bus) (replyRes openRes authRes : Int)
    (wantRet : Bool) (bus : Bus) : Int × Bus × Option Message × RunEff :=
  if bus_pid_changed bus pid then (-ECHILD, bus, none, {})
  else if bus.processing then (-EBUSY, bus, none, {})
  else
    match bus.state with
    | BusState.unset => (-ENOTCONN, bus, none, {})
    | BusState.closed => (-ENOTCONN, bus, none, {})
    | BusState.opening => (openRes, bus, none, {})
    | BusState.authenticating => (authRes, bus, none, {})
    | _ =>
      let bus1 := { bus with processing := true }
      match process_running cbRet now wO rO pm replyRes wantRet bus1 with
      | (r, bus2, om, eff) => (r, { bus2 with processing := false }, om, eff)

/-! ## `sd_bus_start` -/

/-- Function `sd_bus_start` (sd-bus.c:969).  Note the state is set to Opening
before the server/bus-client and configuration checks run.
`fdRes`/`addrRes`/`helloRes` are the results of the external
`bus_start_fd`, `bus_start_address` and `bus_send_hello` steps (their
own state changes happen inside the transport collaborators). -/
def sd_bus_start (pid : Nat) (fdRes addrRes helloRes : Int) (bus : Bus) :
    Int × Bus :=
  if bus.state != BusState.unset then (-EPERM, bus)
  else if bus_pid_changed bus pid then (-ECHILD, bus)
  else
    let bus1 := { bus with state := BusState.opening }
    if bus1.isServer && bus1.busClient then (-EINVAL, bus1)
    else if bus1.inputFd.isSome then
      if fdRes < 0 then (fdRes, bus1) else (helloRes, bus1)
    else if bus1.address.isSome || bus1.sockaddrSet
            || bus1.execPath.isSome || bus1.kernel.isSome then
      if addrRes < 0 then (addrRes, bus1) else (helloRes, bus1)
    else (-EINVAL, bus1)

end SdBus

namespace SdBus

/-! ## Name validity (external validators)

The validators `object_path_is_valid`, `interface_name_is_valid`,
`member_name_is_valid`, `signature_is_valid` and `signature_is_single`
live in `bus-internal.h`/`bus-signature.c`, which are not under `src/`.
They are modelled from the spec (well-formed D-Bus names; signatures are
checked only superficially, which is all the claims exercise). -/

def name_char_ok (c : Char) : Bool := c.isAlpha || c.isDigit || c == '_'

def path_char_ok (c : Char) : Bool := name_char_ok c || c == '/'

/-- Modelled from the spec: a valid object path is `/`, or starts with
`/`, does not end with `/`, has no empty component and only
`[A-Za-z0-9_]` characters in components. -/
def object_path_is_valid (p : String) : Bool :=
  match p.data with
  | [] => false
  | c :: rest =>
    c == '/' &&
    (rest.isEmpty ||
      (rest.getLast? != some '/' &&
       rest.all path_char_ok &&
       (p.data.zip rest).all (fun pr => !(pr.1 == '/' && pr.2 == '/'))))

def split_dot : List Char → List (List Char)
  | [] => [[]]
  | c :: rest =>
    let r := split_dot rest
    if c == '.' then [] :: r
    else
      match r with
      | h :: t => (c :: h) :: t
      | [] => [[c]]

def name_component_ok (s : List Char) : Bool :=
  match s with
  | [] => false
  | c :: _ => !c.isDigit && s.all name_char_ok

/-- Modelled from the spec: an interface name has at least two
dot-separated components, each a well-formed identifier. -/
def interface_name_is_valid (s : String) : Bool :=
  let comps := split_dot s.data
  comps.length ≥ 2 && comps.all name_component_ok && s.data.length ≤ 255

/-- Modelled from the spec: a member name is a single well-formed
identifier. -/
def member_name_is_valid (s : String) : Bool :=
  name_component_ok s.data && s.data.length ≤ 255

def sig_char_ok (c : Char) : Bool :=
  "ybnqiuxtdsogavh".data.contains c

/-- Modelled from the spec (superficial): a signature is a string of
D-Bus type codes. -/
def signature_is_valid (s : String) (_allowDictEntry : Bool) : Bool :=
  s.data.all sig_char_ok

/-- Modelled from the spec (superficial): a single complete type. -/
def signature_is_single (s : String) (_allowDictEntry : Bool) : Bool :=
  s.data.length == 1 && s.data.all sig_char_ok

/-! ## Node allocation and GC -/

/-- Index of the last `/` in the character list (`strrchr`). -/
def last_slash_idx (cs : List Char) : Option Nat :=
  ((cs.enum.filter (fun pr => pr.2 == '/')).getLast?).map (·.1)

/-- The parent-prefix computation of `bus_node_allocate` (sd-bus.c:3176):
`e = strrchr(path, '/'); p = strndupa(path, MAX(1, path - e));`.
Since `e` points into `path`, the pointer difference `path - e` is
`-(index of the last slash)`, which is never positive, so the copied
length is always `1` and the computed parent is always `"/"`. -/
def bus_node_parent_prefix (path : String) : String :=
  match last_slash_idx path.data with
  | none => String.mk (path.data.take 1)
  | some idx => String.mk (path.data.take (max (1 : Int) (0 - (idx : Int))).toNat)

/-- Function `bus_node_allocate` (sd-bus.c:3151): return the existing
node or create it (recursively creating its computed parent first and
linking the child into the parent's child list).  Allocation cannot fail
in the model; the fuel bounds the parent recursion. -/
def bus_node_allocate_fuel (fuel : Nat) (bus : Bus) (path : String) : Bus :=
  match fuel with
  | 0 => bus
  | fuel + 1 =>
    if (nodes_get bus.nodes path).isSome then bus
    else if path == "/" then
      { bus with nodes := nodes_set bus.nodes "/" {} }
    else
      let p := bus_node_parent_prefix path
      let bus1 := bus_node_allocate_fuel fuel bus p
      match nodes_get bus1.nodes p with
      | none => bus1
      | some parentNode =>
        let bus2 := { bus1 with
          nodes := nodes_set bus1.nodes path { parent := some p } }
        let pn2 := { parentNode with children := path :: parentNode.children }
        { bus2 with nodes := nodes_set bus2.nodes p pn2 }

def bus_node_allocate (bus : Bus) (path : String) : Bus :=
  bus_node_allocate_fuel (path.data.length + 1) bus path

/-- Function `bus_node_gc` (sd-bus.c:3208): remove the node if it has no
children, callbacks, vtables, enumerators and no object-manager flag,
unlink it from its parent and recurse on the parent.  The fuel bounds
the upward walk. -/
def bus_node_gc_fuel (fuel : Nat) (bus : Bus) : Option String → Bus
  | none => bus
  | some p =>
    match fuel with
    | 0 => bus
    | fuel + 1 =>
      match nodes_get bus.nodes p with
      | none => bus
      | some n =>
        if !n.children.isEmpty || !n.callbacks.isEmpty || !n.vtables.isEmpty
            || !n.enumerators.isEmpty || n.objectManager then bus
        else
          let ns := nodes_remove bus.nodes p
          let ns2 :=
            match n.parent with
            | none => ns
            | some pp =>
              match nodes_get ns pp with
              | none => ns
              | some pn => nodes_set ns pp { pn with children := pn.children.erase p }
          bus_node_gc_fuel fuel { bus with nodes := ns2 } n.parent

def bus_node_gc (bus : Bus) (p : Option String) : Bus :=
  bus_node_gc_fuel (bus.nodes.length + 1) bus p

/-! ## Object registration -/

/-- Function `bus_add_object` (sd-bus.c:3231): attach a raw callback to
the node at `path`, allocating the node. -/
def bus_add_object (pid : Nat) (b : Bus) (fallback : Bool) (path : String)
    (cb userdata : Nat) : Int × Bus :=
  if !object_path_is_valid path then (-EINVAL, b)
  else if cb == 0 then (-EINVAL, b)
  else if bus_pid_changed b pid then (-ECHILD, b)
  else
    let b1 := bus_node_allocate b path
    match nodes_get b1.nodes path with
    | none => (-ENOMEM, b)
    | some n =>
      let c : NodeCallback := { cb := cb, userdata := userdata, isFallback := fallback }
      (0, { b1 with nodes := nodes_set b1.nodes path { n with callbacks := c :: n.callbacks } })

def sd_bus_add_object (pid : Nat) (bus : Bus) (path : String) (cb userdata : Nat) :
    Int × Bus :=
  bus_add_object pid bus false path cb userdata

def sd_bus_add_fallback (pid : Nat) (bus : Bus) (path : String) (cb userdata : Nat) :
    Int × Bus :=
  bus_add_object pid bus true path cb userdata

/-- Member-registration loop of `add_object_vtable_internal`
(sd-bus.c:3717): walk the entries after `start` until the end marker,
validating each and inserting methods and properties into the
connection-wide indexes.  Returns the first error and the updated
indexes. -/
def vtable_members_insert (nodePath interface : String) :
    List VtableEntry → VIndex → VIndex → Int × VIndex × VIndex
  | [], vm, vp => (0, vm, vp)
  | e :: rest, vm, vp =>
    match e with
    | VtableEntry.fin => (0, vm, vp)
    | VtableEntry.method member s res hasHandler flags =>
      if !member_name_is_valid member || !signature_is_valid s false
          || !signature_is_valid res false || !hasHandler
          || flags.emitsChange || flags.invalidateOnly then (-EINVAL, vm, vp)
      else
        match vindex_put vm (nodePath, interface, member) { flags := flags, signature := s } with
        | (r, vm1) =>
          if r < 0 then (r, vm1, vp)
          else vtable_members_insert nodePath interface rest vm1 vp
    | VtableEntry.property member s flags getVal =>
      if !member_name_is_valid member || !signature_is_single s false
          || flags.methodNoReply
          || (flags.invalidateOnly && !flags.emitsChange) then (-EINVAL, vm, vp)
      else
        match vindex_put vp (nodePath, interface, member)
            { flags := flags, signature := s, getVal := getVal } with
        | (r, vp1) =>
          if r < 0 then (r, vm, vp1)
          else vtable_members_insert nodePath interface rest vm vp1
    | VtableEntry.writableProperty member s flags getVal =>
      if !member_name_is_valid member || !signature_is_single s false
          || flags.methodNoReply
          || (flags.invalidateOnly && !flags.emitsChange) then (-EINVAL, vm, vp)
      else
        match vindex_put vp (nodePath, interface, member)
            { flags := flags, signature := s, getVal := getVal } with
        | (r, vp1) =>
          if r < 0 then (r, vm, vp1)
          else vtable_members_insert nodePath interface rest vm vp1
    | VtableEntry.signal member s _flags =>
      if !member_name_is_valid member || !signature_is_single s false then (-EINVAL, vm, vp)
      else vtable_members_insert nodePath interface rest vm vp
    | VtableEntry.start => (-EINVAL, vm, vp)

/-- Function `add_object_vtable_internal` (sd-bus.c:3650).  Two remarks,
both faithful to the source: (1) the duplicate/mixed-flavor scan sets
`r` to `-EEXIST` when an existing vtable has the same interface and to
`-EPROTOTYPE` when one has a different fallback flavor, but the `fail:`
label returns `0`, so the computed error codes are discarded; (2) on a
member-validation failure the partially inserted members are removed
again (`free_node_vtable`; its cleanup is modelled by keeping the
original indexes — the source's loop there advances the wrong iterator,
see the spec's design notes — this path is not exercised by any claim),
and the fail path again returns `0`. -/
def add_object_vtable_internal (pid : Nat) (bus : Bus) (path interface : String)
    (vtable : List VtableEntry) (fallback : Bool) (hasFind : Bool)
    (findRet : Int) (userdata : Nat) : Int × Bus :=
  if !object_path_is_valid path then (-EINVAL, bus)
  else if !interface_name_is_valid interface then (-EINVAL, bus)
  else if vtable.head? != some VtableEntry.start then (-EINVAL, bus)
  else if bus_pid_changed bus pid then (-ECHILD, bus)
  else
    let bus1 := bus_node_allocate bus path
    match nodes_get bus1.nodes path with
    | none => (-ENOMEM, bus)
    | some n =>
      match n.vtables.find? (fun i => i.interface == interface || i.isFallback != fallback) with
      | some i =>
        let _r : Int := if i.interface == interface then -EEXIST else -EPROTOTYPE
        (0, bus_node_gc bus1 (some path))
      | none =>
        let c : NodeVtableReg :=
          { interface := interface, isFallback := fallback, entries := vtable,
            userdata := userdata, hasFind := hasFind, findRet := findRet }
        match vtable_members_insert path interface vtable.tail
            bus1.vtableMethods bus1.vtableProperties with
        | (r, vm, vp) =>
          if r < 0 then (0, bus_node_gc bus1 (some path))
          else
            (0, { bus1 with
              nodes := nodes_set bus1.nodes path { n with vtables := c :: n.vtables },
              vtableMethods := vm, vtableProperties := vp })

def sd_bus_add_object_vtable (pid : Nat) (bus : Bus) (path interface : String)
    (vtable : List VtableEntry) (userdata : Nat) : Int × Bus :=
  add_object_vtable_internal pid bus path interface vtable false false 1 userdata

def sd_bus_add_fallback_vtable (pid : Nat) (bus : Bus) (path interface : String)
    (vtable : List VtableEntry) (hasFind : Bool) (findRet : Int) (userdata : Nat) :
    Int × Bus :=
  add_object_vtable_internal pid bus path interface vtable true hasFind findRet userdata

end SdBus

namespace SdBus

/-! ## PropertiesChanged emission -/

/-- Function `node_vtable_get_userdata` (sd-bus.c:1878): run the vtable's
`find` resolver if present; `r <= 0` is passed through, otherwise the
resolved userdata is produced.  In the model the resolver's outcome is
the registration's `findRet`/`userdata` data. -/
def node_vtable_get_userdata (c : NodeVtableReg) : Int × Nat :=
  if c.hasFind then
    if c.findRet ≤ 0 then (c.findRet, 0) else (1, c.userdata)
  else (1, c.userdata)

/-- Vtable-selection loop of `emit_properties_changed_on_interface`
(sd-bus.c:3991).  Faithful to the source: a vtable whose interface
matches is selected by `break` before `node_vtable_get_userdata` runs
(so the loop's `u` is still `NULL`, modelled as `0`), while for
non-matching interfaces the resolver runs and a positive result selects
that vtable. -/
def emit_select_vtable (interface : String) (requireFallback : Bool) :
    List NodeVtableReg → Except Int (Option (NodeVtableReg × Nat))
  | [] => Except.ok none
  | c :: rest =>
    if requireFallback && !c.isFallback then emit_select_vtable interface requireFallback rest
    else if c.interface == interface then Except.ok (some (c, 0))
    else
      let r := node_vtable_get_userdata c
      if r.1 < 0 then Except.error r.1
      else if r.1 > 0 then Except.ok (some (c, r.2))
      else emit_select_vtable interface requireFallback rest

/-- Changed-properties loop of `emit_properties_changed_on_interface`
(sd-bus.c:4023): look each name up in `vtable_properties` under
`(prefix, interface, name)`; absent names give `-ENOENT`, names without
EMITS_CHANGE give `-EDOM`, INVALIDATE_ONLY names are deferred to the
`as` array, every other name appends one dict entry.  Faithful to the
source, the string appended as the entry's key is `*n` — the node — and
not `*property` (sd-bus.c:4045); with `struct node`'s leading field that
reads as the node's path, i.e. the prefix. -/
def emit_collect (vp : VIndex) (pfx interface nodePath : String) :
    List String → Except Int (List (String × Nat) × Bool)
  | [] => Except.ok ([], false)
  | name :: rest =>
    match vindex_get vp (pfx, interface, name) with
    | none => Except.error (-ENOENT)
    | some v =>
      if !v.flags.emitsChange then Except.error (-EDOM)
      else if v.flags.invalidateOnly then
        match emit_collect vp pfx interface nodePath rest with
        | Except.error e => Except.error e
        | Except.ok (d, _) => Except.ok (d, true)
      else
        match emit_collect vp pfx interface nodePath rest with
        | Except.error e => Except.error e
        | Except.ok (d, inv) => Except.ok ((nodePath, v.getVal) :: d, inv)

/-- Invalidated-properties loop (sd-bus.c:4077): the names flagged
INVALIDATE_ONLY, in request order. -/
def emit_invalidated (vp : VIndex) (pfx interface : String)
    (names : List String) : List String :=
  names.filter (fun name =>
    match vindex_get vp (pfx, interface, name) with
    | some v => v.flags.invalidateOnly
    | none => false)

/-- Payload of one composed `PropertiesChanged` signal: the object path
it is emitted on, the `s` interface argument, the `a{sv}` changed dict
and the trailing `as` invalidated array. -/
structure PropSignal where
  path : String
  interfaceArg : String
  dict : List (String × Nat)
  invalidated : List String
deriving DecidableEq, Repr

/-- Function `emit_properties_changed_on_interface` (sd-bus.c:3966):
find an applicable vtable on the node at `pfx`, build the signal from
the requested names, and send it.  The final `sd_bus_send` runs with a
fully-succeeding transport write (the claims about emission concern the
composed content and the error returns, not queue bookkeeping). -/
def emit_properties_changed_on_interface (pid : Nat) (bus : Bus)
    (pfx path interface : String) (requireFallback : Bool)
    (names : List String) : Int × Bus × Option PropSignal :=
  match nodes_get bus.nodes pfx with
  | none => (0, bus, none)
  | some n =>
    match emit_select_vtable interface requireFallback n.vtables with
    | Except.error r => (r, bus, none)
    | Except.ok none => (0, bus, none)
    | Except.ok (some _cu) =>
      match emit_collect bus.vtableProperties pfx interface pfx names with
      | Except.error r => (r, bus, none)
      | Except.ok (dict, hasInv) =>
        let inval := if hasInv then emit_invalidated bus.vtableProperties pfx interface names else []
        let psig : PropSignal :=
          { path := path, interfaceArg := interface, dict := dict, invalidated := inval }
        let msg : Message := { type := MsgType.signal, headerVersion := bus.messageVersion }
        match sd_bus_send pid 1 (BUS_MESSAGE_SIZE msg) bus msg false with
        | (r, bus1, _, _) => if r < 0 then (r, bus1, none) else (1, bus1, some psig)

/-- Parent-prefix walk of `sd_bus_emit_properties_changed_strv`
(sd-bus.c:4120): truncate the working path at its last slash (down to
`"/"`) and try a fallback emission at each prefix. -/
def emit_walk (pid : Nat) (bus : Bus) (path interface : String)
    (names : List String) : Nat → String → Int × Bus × Option PropSignal
  | 0, _ => (-ENOENT, bus, none)
  | fuel + 1, p =>
    if p == "/" then (-ENOENT, bus, none)
    else
      let p1 :=
        match last_slash_idx p.data with
        | none => "/"
        | some 0 => "/"
        | some idx => String.mk (p.data.take idx)
      match emit_properties_changed_on_interface pid bus p1 path interface true names with
      | (r, bus1, psig) =>
        if r != 0 then (r, bus1, psig)
        else emit_walk pid bus1 path interface names fuel p1

/-- Function `sd_bus_emit_properties_changed_strv` (sd-bus.c:4105):
validate the path and interface, try a direct emission at `path`, then
fallback emissions at each parent prefix; `-ENOENT` when none applied.
Faithful to the source, there is no `bus_pid_changed` check in this
entry point (the `pid` parameter mirrors the ambient `getpid()` that
every public operation of the model receives). -/
def sd_bus_emit_properties_changed_strv (pid : Nat) (bus : Bus)
    (path interface : String) (names : List String) :
    Int × Bus × Option PropSignal :=
  if !object_path_is_valid path then (-EINVAL, bus, none)
  else if !interface_name_is_valid interface then (-EINVAL, bus, none)
  else
    match emit_properties_changed_on_interface pid bus path path interface false names with
    | (r, bus1, psig) =>
      if r != 0 then (r, bus1, psig)
      else if path.data.length > 1 then
        emit_walk pid bus1 path interface names (path.data.length + 1) path
      else (-ENOENT, bus1, none)

end SdBus

namespace SdBus

/-! ## Concrete instances used by counterexamples and witnesses -/

/-- A freshly running connection (creation pid 7). -/
def busRun : Bus := { state := BusState.running, originalPid := 7 }

/-- A vtable with one EMITS_CHANGE property `P` of current value 42. -/
def vtP : List VtableEntry :=
  [VtableEntry.start,
   VtableEntry.property "P" "i" { emitsChange := true } 42,
   VtableEntry.fin]

/-- A vtable with one property `Q` without EMITS_CHANGE. -/
def vtQ : List VtableEntry :=
  [VtableEntry.start,
   VtableEntry.property "Q" "i" {} 7,
   VtableEntry.fin]

/-- The running bus with `vtP` registered at `("/x", "org.project.IFace")`. -/
def busX : Bus := (sd_bus_add_object_vtable 7 busRun "/x" "org.project.IFace" vtP 5).2

/-- The same bus with `vtQ` additionally registered at
`("/x", "org.other.IFace")`. -/
def busXQ : Bus := (sd_bus_add_object_vtable 7 busX "/x" "org.other.IFace" vtQ 6).2

/-- A running bus whose serial counter sits one step before the wrap. -/
def busWrap : Bus :=
  { state := BusState.running, originalPid := 7, serial := SERIAL_MOD - 1 }

/-- An unconfigured bus with both server and bus-client set. -/
def busSrvCli : Bus := { originalPid := 7, isServer := true, busClient := true }

/-- An already-sealed message whose header version 2 exceeds `busRun`'s
connection version 1. -/
def mSealed2 : Message := { headerVersion := 2, sealed := true, serial := 5 }

/-- A reply callback with serial 9 and deadline 50. -/
def cbT : ReplyCallback := { cb := 3, serial := 9, timeout := 50 }

/-- A running bus with `cbT` registered in the reply table and the
timeout prioq. -/
def busT : Bus :=
  { state := BusState.running, originalPid := 7,
    replyCallbacks := [(9, cbT)], replyCallbacksPrioq := [cbT] }

/-- A reply message flagged `dont_send` (a reply synthesized for a call
that carried NO_REPLY_EXPECTED). -/
def mDont : Message := { type := MsgType.methodReturn, dontSend := true }

/-- The timeout invocation `process_timeout` performs for a callback. -/
def timeoutInvocationOf (c : ReplyCallback) : Invocation :=
  { cb := c.cb, userdata := c.userdata, msgType := MsgType.methodError,
    errorName := "org.freedesktop.DBus.Error.Timeout", replySerial := c.serial }

/-- The serial `bus_seal_message` leaves in the message: for sealed
messages their existing one, otherwise the next counter value. -/
def assigned_serial (b : Bus) (m : Message) : Nat :=
  if m.sealed then m.serial else (b.serial + 1) % SERIAL_MOD

/-- A plain unsealed method call with all defaults. -/
def mPlain : Message := {}

/-- A vtable with the EMITS_CHANGE property `P` (value 42) and the
EMITS_CHANGE|INVALIDATE_ONLY property `V`. -/
def vtV : List VtableEntry :=
  [VtableEntry.start,
   VtableEntry.property "P" "i" { emitsChange := true } 42,
   VtableEntry.property "V" "i" { emitsChange := true, invalidateOnly := true } 0,
   VtableEntry.fin]

/-- A running bus with `vtV` registered at `("/v", "org.project.IFace")`. -/
def busXV : Bus := (sd_bus_add_object_vtable 7 busRun "/v" "org.project.IFace" vtV 5).2

end SdBus

-- End of definitions; the claim development follows.

namespace SdBus

/-! ## Claim C9 -/

/-- Claim C9 (amended).  An already-sealed message whose header version
does not exceed the connection's passes through sealing completely
unchanged (same serial, same encoding, bus untouched); however the
header-version restriction applies to sealed messages as well: `send`
of an already-sealed message whose header version exceeds the
connection's fails with *operation-not-permitted*. -/
theorem claim_C9 (b : Bus) (m : Message) (pid : Nat) (wres : Int) (widx : Nat)
    (want : Bool) (hseal : m.sealed = true) :
    (m.headerVersion ≤ b.messageVersion → bus_seal_message b m = (0, b, m)) ∧
    (BUS_IS_OPEN b.state = true → bus_pid_changed b pid = false → m.nFds = 0 →
      b.messageVersion < m.headerVersion →
      sd_bus_send pid wres widx b m want = (-EPERM, b, none, {})) := by
  constructor
  · intro hver
    simp [bus_seal_message, Nat.not_lt.mpr hver, hseal]
  · intro hopen hpid hfds hver
    have hp : (-EPERM : Int) < 0 := by norm_num [EPERM]
    simp [sd_bus_send, hopen, hpid, hfds, bus_seal_message, hseal, hver, hp]

/-- Witness for C9 at concrete inputs. -/
theorem claim_C9_witness :
    bus_seal_message busRun { mSealed2 with headerVersion := 1 } =
      (0, busRun, { mSealed2 with headerVersion := 1 }) ∧
    sd_bus_send 7 1 1 busRun mSealed2 true = (-EPERM, busRun, none, {}) := by
  refine ⟨(claim_C9 busRun { mSealed2 with headerVersion := 1 } 7 1 1 true
      (by decide)).1 (by decide), ?_⟩
  exact (claim_C9 busRun mSealed2 7 1 1 true (by decide)).2
    (by decide) (by decide) (by decide) (by decide)

/-- Counterexample for C9 as stated: sending the already-sealed
`mSealed2` (header version 2) on `busRun` (connection version 1) fails
with `-EPERM`, i.e. on account of its header version. -/
theorem claim_C9_cex :
    (sd_bus_send 7 1 1 busRun mSealed2 true).1 = -EPERM ∧ (-EPERM : Int) ≠ 0 := by
  decide

/-! ## Claim C10 -/

/-- Claim C10: sending a `dont_send` message with a null serial
out-parameter returns 0 without a transport write and without touching
the write queue or `windex`. -/
theorem claim_C10 (b : Bus) (m : Message) (pid : Nat) (wres : Int) (widx : Nat)
    (hopen : BUS_IS_OPEN b.state = true) (hpid : bus_pid_changed b pid = false)
    (hfds : m.nFds = 0) (hver : m.headerVersion ≤ b.messageVersion)
    (hds : m.dontSend = true) :
    (sd_bus_send pid wres widx b m false).1 = 0 ∧
    (sd_bus_send pid wres widx b m false).2.1.wqueue = b.wqueue ∧
    (sd_bus_send pid wres widx b m false).2.1.windex = b.windex ∧
    (sd_bus_send pid wres widx b m false).2.2.2.wrote = false := by
  cases hm : m.sealed <;>
    simp [sd_bus_send, bus_seal_message, bus_message_seal, hopen, hpid, hfds,
      Nat.not_lt.mpr hver, hds, hm]

/-- Witness for C10 at concrete inputs. -/
theorem claim_C10_witness :
    (sd_bus_send 7 1 1 busRun mDont false).1 = 0 ∧
    (sd_bus_send 7 1 1 busRun mDont false).2.1.wqueue = busRun.wqueue ∧
    (sd_bus_send 7 1 1 busRun mDont false).2.1.windex = busRun.windex ∧
    (sd_bus_send 7 1 1 busRun mDont false).2.2.2.wrote = false :=
  claim_C10 busRun mDont 7 1 1 (by decide) (by decide) (by decide)
    (by decide) (by decide)

end SdBus

namespace SdBus

/-! ## Claim C8 -/

/-- Claim C8 (amended).  `start` on a non-Unset bus fails with
*operation-not-permitted* and leaves the state alone; on an Unset bus
the state is set to Opening first, and only then are the simultaneous
server+bus-client configuration and the no-transport configuration
rejected with *invalid-argument* — so after those rejections the state
is Opening, not Unset. -/
theorem claim_C8 (bus : Bus) (pid : Nat) (fdRes addrRes helloRes : Int) :
    (bus.state ≠ BusState.unset →
      sd_bus_start pid fdRes addrRes helloRes bus = (-EPERM, bus)) ∧
    (bus.state = BusState.unset → bus_pid_changed bus pid = false →
      bus.isServer = true → bus.busClient = true →
      sd_bus_start pid fdRes addrRes helloRes bus =
        (-EINVAL, { bus with state := BusState.opening })) ∧
    (bus.state = BusState.unset → bus_pid_changed bus pid = false →
      (bus.isServer && bus.busClient) = false →
      bus.inputFd = none → bus.address = none → bus.sockaddrSet = false →
      bus.execPath = none → bus.kernel = none →
      sd_bus_start pid fdRes addrRes helloRes bus =
        (-EINVAL, { bus with state := BusState.opening })) := by
  refine ⟨?_, ?_, ?_⟩
  · intro h1
    simp [sd_bus_start, bne_iff_ne, h1]
  · intro h1 h2 h3 h4
    simp [sd_bus_start, h1, h2, h3, h4]
  · intro h1 h2 h3 h4 h5 h6 h7 h8
    simp [sd_bus_start, h1, h2, h3, h4, h5, h6, h7, h8]

/-- Witness for C8 at concrete inputs. -/
theorem claim_C8_witness :
    sd_bus_start 7 1 1 1 busSrvCli =
      (-EINVAL, { busSrvCli with state := BusState.opening }) :=
  (claim_C8 busSrvCli 7 1 1 1).2.1 (by decide) (by decide) (by decide) (by decide)

/-- Counterexample for C8 as stated: on the Unset bus `busSrvCli`
(server and bus-client both set) `start` rejects with `-EINVAL`, yet the
state afterwards is Opening, not Unset. -/
theorem claim_C8_cex :
    (sd_bus_start 7 1 1 1 busSrvCli).1 = -EINVAL ∧
    (sd_bus_start 7 1 1 1 busSrvCli).2.state = BusState.opening ∧
    BusState.opening ≠ BusState.unset := by decide

/-! ## Claim C3 -/

/-- Claim C3 evaluated at the failing input: registering a callback at
`"/a/b"` on an empty running bus succeeds, creates the node `"/a/b"`
whose recorded parent is `"/"` directly, and does not create the
intermediate ancestor `"/a"` — because the parent-prefix computation
`strndupa(path, MAX(1, path - e))` always copies exactly one character
(the claim, like the spec, requires `"/a"` to be present). -/
theorem claim_C3 :
    (sd_bus_add_object 7 busRun "/a/b" 1 0).1 = 0 ∧
    (nodes_get (sd_bus_add_object 7 busRun "/a/b" 1 0).2.nodes "/a/b").isSome = true ∧
    nodes_get (sd_bus_add_object 7 busRun "/a/b" 1 0).2.nodes "/a" = none ∧
    ((nodes_get (sd_bus_add_object 7 busRun "/a/b" 1 0).2.nodes "/a/b").map Node.parent)
      = some (some "/") ∧
    bus_node_parent_prefix "/a/b" = "/" := by decide

/-! ## Claim C4 -/

/-- Claim C4 evaluated at the failing input: with the EMITS_CHANGE
property `P` (current value 42) registered at
`("/x", "org.project.IFace")`, emitting for `["P"]` succeeds, but the
one dict entry's key is the node's path `"/x"` — the source appends
`*n`, the node, instead of `*property` — and not the property name
`"P"`.  The error returns the claim lists do hold: an absent name gives
`-ENOENT`, a name without EMITS_CHANGE gives `-EDOM`, and an
INVALIDATE_ONLY name goes to the trailing `as` array. -/
theorem claim_C4 :
    (sd_bus_emit_properties_changed_strv 7 busX "/x" "org.project.IFace" ["P"]).1 = 1 ∧
    (sd_bus_emit_properties_changed_strv 7 busX "/x" "org.project.IFace" ["P"]).2.2 =
      some { path := "/x", interfaceArg := "org.project.IFace",
             dict := [("/x", 42)], invalidated := [] } ∧
    ((sd_bus_emit_properties_changed_strv 7 busX "/x" "org.project.IFace" ["P"]).2.2.map
        (fun s => s.dict.map Prod.fst)) ≠ some ["P"] ∧
    (sd_bus_emit_properties_changed_strv 7 busX "/x" "org.project.IFace" ["R"]).1 = -ENOENT ∧
    (sd_bus_emit_properties_changed_strv 7 busXQ "/x" "org.other.IFace" ["Q"]).1 = -EDOM ∧
    (sd_bus_emit_properties_changed_strv 7 busXV "/v" "org.project.IFace" ["P", "V"]).2.2 =
      some { path := "/v", interfaceArg := "org.project.IFace",
             dict := [("/v", 42)], invalidated := ["V"] } := by decide

end SdBus

namespace SdBus

/-! ## Claim C1 -/

/-- Helper: allocating an already-present node is a no-op. -/
theorem bus_node_allocate_of_present (bus : Bus) (path : String)
    (h : (nodes_get bus.nodes path).isSome = true) :
    bus_node_allocate bus path = bus := by
  unfold bus_node_allocate bus_node_allocate_fuel
  simp [h]

/-- Helper: GC leaves a node with a non-empty vtable list alone. -/
theorem bus_node_gc_of_vtables (bus : Bus) (p : String) (n : Node)
    (hn : nodes_get bus.nodes p = some n) (hv : n.vtables ≠ []) :
    bus_node_gc bus (some p) = bus := by
  unfold bus_node_gc bus_node_gc_fuel
  cases hvt : n.vtables with
  | nil => exact absurd hvt hv
  | cons a l => simp [hn, hvt]

/-- Helper: a list with an element satisfying `p` has a `find?` hit for
any weaker predicate `q`. -/
theorem find?_isSome_weaken {α : Type} (l : List α) (p q : α → Bool)
    (hpq : ∀ x, p x = true → q x = true) (h : l.any p = true) :
    (l.find? q).isSome = true := by
  induction l with
  | nil => simp at h
  | cons a t ih =>
    cases hq : q a
    · have hpa : p a = false := by
        cases hpa : p a
        · rfl
        · exact absurd (hpq a hpa) (by simp [hq])
      rw [List.find?_cons_of_neg _ (by simp [hq])]
      exact ih (by simpa [hpa] using h)
    · simp [List.find?_cons_of_pos _ hq]

/-- Claim C1 (amended).  A second registration via
`add_object_vtable`/`add_fallback_vtable` for a (path, interface) pair
that already carries a vtable never registers: the bus is returned
completely unchanged.  However the call reports success: the duplicate
scan computes an error code — testing, for each existing entry,
interface equality before fallback flavor, so a same-pair duplicate
whose matching entry is reached first computes *already-exists*
whatever its flavor — but the function's failure path returns `0`,
discarding that code, so the caller sees success in both the
same-flavor and the mixed-flavor case. -/
theorem claim_C1 (pid : Nat) (bus : Bus) (path interface : String)
    (vtable : List VtableEntry) (fallback : Bool) (hasFind : Bool)
    (findRet : Int) (ud : Nat)
    (hpath : object_path_is_valid path = true)
    (hif : interface_name_is_valid interface = true)
    (hvt : vtable.head? = some VtableEntry.start)
    (hpid : bus_pid_changed bus pid = false)
    (hdup : ((nodes_get bus.nodes path).getD {}).vtables.any
        (fun i => i.interface == interface) = true) :
    add_object_vtable_internal pid bus path interface vtable fallback hasFind findRet ud
      = (0, bus) := by
  have hsome : (nodes_get bus.nodes path).isSome = true := by
    cases hng : nodes_get bus.nodes path
    · rw [hng] at hdup
      simp [Option.getD] at hdup
    · rfl
  obtain ⟨n, hn⟩ := Option.isSome_iff_exists.mp hsome
  have hdupn : n.vtables.any (fun i => i.interface == interface) = true := by
    rw [hn] at hdup; simpa using hdup
  have hvne : n.vtables ≠ [] := by
    intro hnil
    rw [hnil] at hdupn
    simp at hdupn
  have hfind : (n.vtables.find?
      (fun i => i.interface == interface || i.isFallback != fallback)).isSome = true := by
    refine find?_isSome_weaken _ _ _ (fun x hx => ?_) hdupn
    simp [hx]
  obtain ⟨i, hi⟩ := Option.isSome_iff_exists.mp hfind
  unfold add_object_vtable_internal
  rw [bus_node_allocate_of_present bus path hsome]
  simp only [hpath, hif, hvt, hpid, Bool.not_true, Bool.not_false, hn, hi,
    bne_self_eq_false, if_false, Bool.false_eq_true, if_true]
  simp [hpath, hif, hvt, hpid, hn, hi, bus_node_gc_of_vtables bus path n hn hvne]

/-- Witness for C1 at concrete inputs: re-registering
`("/x", "org.project.IFace")` on `busX`, directly or as a fallback,
returns `(0, busX)`. -/
theorem claim_C1_witness :
    add_object_vtable_internal 7 busX "/x" "org.project.IFace" vtP false false 1 5
      = (0, busX) ∧
    add_object_vtable_internal 7 busX "/x" "org.project.IFace" vtP true false 1 5
      = (0, busX) :=
  ⟨claim_C1 7 busX "/x" "org.project.IFace" vtP false false 1 5
      (by decide) (by decide) (by decide) (by decide) (by decide),
   claim_C1 7 busX "/x" "org.project.IFace" vtP true false 1 5
      (by decide) (by decide) (by decide) (by decide) (by decide)⟩

/-- Counterexample for C1 as stated: both the duplicate same-flavor
registration and the mixed-flavor registration on `busX` return `0`,
not *already-exists* and not *wrong-protocol* (the vtable list is
nevertheless unchanged). -/
theorem claim_C1_cex :
    (sd_bus_add_object_vtable 7 busX "/x" "org.project.IFace" vtP 5).1 = 0 ∧
    (sd_bus_add_object_vtable 7 busX "/x" "org.project.IFace" vtP 5).1 ≠ -EEXIST ∧
    (sd_bus_add_object_vtable 7 busX "/x" "org.project.IFace" vtP 5).2 = busX ∧
    (sd_bus_add_fallback_vtable 7 busX "/x" "org.project.IFace" vtP false 1 5).1 = 0 ∧
    (sd_bus_add_fallback_vtable 7 busX "/x" "org.project.IFace" vtP false 1 5).1
      ≠ -EPROTOTYPE ∧
    (sd_bus_add_fallback_vtable 7 busX "/x" "org.project.IFace" vtP false 1 5).2 = busX := by
  decide

end SdBus

namespace SdBus

/-! ## Claim C5 -/

/-- Helper: on an empty object tree one emission attempt finds no node
and reports "not applicable". -/
theorem emit_on_interface_empty (pid : Nat) (bus : Bus)
    (pfx path interface : String) (rf : Bool) (names : List String)
    (h : bus.nodes = []) :
    emit_properties_changed_on_interface pid bus pfx path interface rf names
      = (0, bus, none) := by
  simp [emit_properties_changed_on_interface, nodes_get, h]

/-- Helper: on an empty object tree the parent-prefix walk ends with
`-ENOENT`. -/
theorem emit_walk_empty (pid : Nat) (bus : Bus) (path interface : String)
    (names : List String) (h : bus.nodes = []) (fuel : Nat) (p : String) :
    emit_walk pid bus path interface names fuel p = (-ENOENT, bus, none) := by
  induction fuel generalizing p with
  | zero => simp [emit_walk]
  | succ f ih =>
    by_cases hp : p = "/"
    · simp [emit_walk, hp]
    · simp [emit_walk, hp, emit_on_interface_empty pid bus _ path interface true names h, ih]

/-- Claim C5 (amended).  The public operations that do check the
creation pid run the check after their argument and state validation
(so under a PID mismatch `send` on a closed bus still reports
*not-connected* rather than *wrong-child-process*), and
`sd_bus_emit_properties_changed_strv` performs no pid check of its
own: on a forked process it does its tree walk and property lookups,
and a lookup failure is reported as the lookup error (here `-ENOENT`
on an empty tree) rather than *wrong-child-process*.  Only when a
signal is actually composed does the mismatch surface, with `-ECHILD`
coming from the nested internal `sd_bus_send` — the final, closed
conjunct shows this on `busX` (creation pid 7, caller pid 8) for the
registered EMITS_CHANGE property `P`. -/
theorem claim_C5 (pid : Nat) (bus : Bus)
    (hpid : bus_pid_changed bus pid = true) :
    (∀ wres widx m want, BUS_IS_OPEN bus.state = true →
      (sd_bus_send pid wres widx bus m want).1 = -ECHILD) ∧
    (∀ wres widx m want, BUS_IS_OPEN bus.state = false →
      (sd_bus_send pid wres widx bus m want).1 = -ENOTCONN) ∧
    (bus.state = BusState.unset → ∀ fdRes addrRes helloRes,
      (sd_bus_start pid fdRes addrRes helloRes bus).1 = -ECHILD) ∧
    (∀ serial, serial ≠ 0 →
      (sd_bus_send_with_reply_cancel pid bus serial).1 = -ECHILD) ∧
    (∀ cbRet now wO rO pm replyRes openRes authRes wantRet,
      (sd_bus_process pid cbRet now wO rO pm replyRes openRes authRes wantRet bus).1
        = -ECHILD) ∧
    (∀ path cb ud, object_path_is_valid path = true → cb ≠ 0 →
      (sd_bus_add_object pid bus path cb ud).1 = -ECHILD) ∧
    (bus.nodes = [] → ∀ path interface names,
      object_path_is_valid path = true → interface_name_is_valid interface = true →
      (sd_bus_emit_properties_changed_strv pid bus path interface names).1 = -ENOENT) ∧
    (sd_bus_emit_properties_changed_strv 8 busX "/x" "org.project.IFace" ["P"]).1
      = -ECHILD := by
  refine ⟨?_, ?_, ?_, ?_, ?_, ?_, ?_, ?_⟩
  · intro wres widx m want hopen
    simp [sd_bus_send, hopen, hpid]
  · intro wres widx m want hopen
    simp [sd_bus_send, hopen]
  · intro hunset fdRes addrRes helloRes
    simp [sd_bus_start, hunset, hpid]
  · intro serial hs
    simp [sd_bus_send_with_reply_cancel, hs, hpid]
  · intro cbRet now wO rO pm replyRes openRes authRes wantRet
    simp [sd_bus_process, hpid]
  · intro path cb ud hp hcb
    simp [sd_bus_add_object, bus_add_object, hp, hcb, hpid]
  · intro hempty path interface names hp hif
    have hd := emit_on_interface_empty pid bus path path interface false names hempty
    have hw := emit_walk_empty pid bus path interface names hempty
    simp [sd_bus_emit_properties_changed_strv, hp, hif, hd, hw, apply_ite]
  · decide

/-- Witness for C5 at concrete inputs (pid 8 against creation pid 7). -/
theorem claim_C5_witness :
    (sd_bus_process 8 (fun _ => 0) 0 [] [] (fun b _ => (0, b)) 0 0 0 false busRun).1
      = -ECHILD ∧
    (sd_bus_emit_properties_changed_strv 8 busRun "/x" "org.project.IFace" ["P"]).1
      = -ENOENT := by
  have h := claim_C5 8 busRun (by decide)
  exact ⟨h.2.2.2.2.1 (fun _ => 0) 0 [] [] (fun b _ => (0, b)) 0 0 0 false,
    h.2.2.2.2.2.2.1 (by decide) "/x" "org.project.IFace" ["P"] (by decide) (by decide)⟩

/-- Counterexample for C5 as stated: on buses whose creation pid 7
differs from the calling pid 8, `sd_bus_emit_properties_changed_strv`
does not fail with *wrong-child-process* — it performs its lookups and
returns `-ENOENT` (absent property) or `-EDOM` (property without
EMITS_CHANGE) instead. -/
theorem claim_C5_cex :
    bus_pid_changed busX 8 = true ∧
    (sd_bus_emit_properties_changed_strv 8 busX "/x" "org.project.IFace" ["R"]).1
      = -ENOENT ∧
    (sd_bus_emit_properties_changed_strv 8 busXQ "/x" "org.other.IFace" ["Q"]).1
      = -EDOM ∧
    (-ENOENT : Int) ≠ -ECHILD ∧ (-EDOM : Int) ≠ -ECHILD := by decide

end SdBus

namespace SdBus

/-! ## Claim C2 -/

/-- Helper: one successful fast-path send of an unsealed message on an
idle running bus assigns the next serial (no wrap) and reports it. -/
theorem send_step (b : Bus) (m : Message) (pid : Nat)
    (hstate : b.state = BusState.running) (hpid : bus_pid_changed b pid = false)
    (hq : b.wqueue = []) (hsealed : m.sealed = false)
    (hver : m.headerVersion ≤ b.messageVersion) (hfds : m.nFds = 0)
    (hlt : b.serial + 1 < SERIAL_MOD) :
    sd_bus_send pid 1 (BUS_MESSAGE_SIZE m) b m true =
      (0, { b with serial := b.serial + 1 }, some (b.serial + 1),
        { wrote := true }) := by
  have hmod : (b.serial + 1) % SERIAL_MOD = b.serial + 1 := Nat.mod_eq_of_lt hlt
  simp [sd_bus_send, bus_seal_message, bus_message_seal, BUS_IS_OPEN,
    BUS_MESSAGE_SERIAL, BUS_MESSAGE_SIZE, hstate, hpid, hq, hsealed,
    Nat.not_lt.mpr hver, hfds, hmod]

/-- Helper: the reported serials of a run of idle-bus sends are exactly
the successive counter values, as long as the counter does not wrap. -/
theorem sendSeq_serials (pid : Nat) (ms : List Message) : ∀ (b : Bus),
    b.state = BusState.running → bus_pid_changed b pid = false →
    b.wqueue = [] →
    (∀ m ∈ ms, m.sealed = false ∧ m.headerVersion ≤ b.messageVersion ∧ m.nFds = 0) →
    b.serial + ms.length < SERIAL_MOD →
    (sendSeq pid b ms).2 =
      (List.range ms.length).map (fun i => ((0 : Int), some (b.serial + i + 1))) := by
  induction ms with
  | nil => intro b _ _ _ _ _; simp [sendSeq]
  | cons m tl ih =>
    intro b hstate hpid hq hm hwrap
    obtain ⟨hs, hv, hf⟩ := hm m (List.mem_cons_self m tl)
    have hlen : (m :: tl).length = tl.length + 1 := rfl
    have hlt : b.serial + 1 < SERIAL_MOD := by omega
    have hstep := send_step b m pid hstate hpid hq hs hv hf hlt
    have ihb := ih { b with serial := b.serial + 1 } (by simpa using hstate)
      (by simpa [bus_pid_changed] using hpid) (by simpa using hq)
      (by intro m2 hm2; simpa using hm m2 (List.mem_cons_of_mem m hm2))
      (show b.serial + 1 + tl.length < SERIAL_MOD by omega)
    have hfun : ((fun i => ((0 : Int), some (b.serial + i + 1))) ∘ Nat.succ)
        = fun i => ((0 : Int), some (b.serial + 1 + i + 1)) := by
      funext i
      have h1 : b.serial + (i + 1) + 1 = b.serial + 1 + i + 1 := by omega
      simp only [Function.comp_apply, Nat.succ_eq_add_one, h1]
    simp only [sendSeq, hstep, ihb]
    rw [List.length_cons, List.range_succ_eq_map, List.map_cons, List.map_map, hfun]

/-- Claim C2 (amended).  On an idle running bus, the serials assigned
to a run of sends of unsealed messages are the successive counter
values — strictly increasing in call order and never 0 — *provided the
counter does not wrap*.  (The increment does not skip 0 on wrap: with
the counter at its maximum, the next assigned serial is 0, see the
counterexample.) -/
theorem claim_C2 (pid : Nat) (b : Bus) (ms : List Message)
    (hstate : b.state = BusState.running)
    (hpid : bus_pid_changed b pid = false)
    (hq : b.wqueue = [])
    (hm : ∀ m ∈ ms, m.sealed = false ∧ m.headerVersion ≤ b.messageVersion ∧ m.nFds = 0)
    (hwrap : b.serial + ms.length < SERIAL_MOD) :
    (sendSeq pid b ms).2 =
      (List.range ms.length).map (fun i => ((0 : Int), some (b.serial + i + 1))) ∧
    ((sendSeq pid b ms).2.filterMap (·.2)).Pairwise (· < ·) ∧
    (∀ s ∈ (sendSeq pid b ms).2.filterMap (·.2), s ≠ 0) ∧
    (∀ r ∈ (sendSeq pid b ms).2, r.1 = 0) := by
  have hser := sendSeq_serials pid ms b hstate hpid hq hm hwrap
  have hgen : ∀ (l : List Nat) (f : Nat → Nat),
      (l.map (fun a => ((0 : Int), some (f a)))).filterMap (·.2) = l.map f := by
    intro l f
    induction l with
    | nil => rfl
    | cons a t ih => simp [List.filterMap_cons, ih]
  have hfm : (sendSeq pid b ms).2.filterMap (·.2)
      = (List.range ms.length).map (fun i => b.serial + i + 1) := by
    rw [hser]
    exact hgen (List.range ms.length) (fun i => b.serial + i + 1)
  refine ⟨hser, ?_, ?_, ?_⟩
  · rw [hfm]
    exact (List.pairwise_lt_range ms.length).map _ (fun a c h => by omega)
  · intro s hs
    rw [hfm] at hs
    obtain ⟨i, _, hi⟩ := List.mem_map.mp hs
    omega
  · intro r hr
    rw [hser] at hr
    obtain ⟨i, _, hi⟩ := List.mem_map.mp hr
    simp [← hi]

/-- Witness for C2 at concrete inputs: three sends on the fresh
`busRun` report serials 1, 2, 3. -/
theorem claim_C2_witness :
    (sendSeq 7 busRun [mPlain, mPlain, mPlain]).2 =
      [(0, some 1), (0, some 2), (0, some 3)] := by
  have h := (claim_C2 7 busRun [mPlain, mPlain, mPlain] rfl (by decide) rfl
    (by decide) (by decide)).1
  rw [h]; decide

/-- Counterexample for C2 as stated: on `busWrap`, whose counter sits
at `2^32 - 1`, the next successful send assigns and reports serial 0 —
the increment does not skip 0 on wrap. -/
theorem claim_C2_cex :
    (sd_bus_send 7 1 1 busWrap mPlain true).1 = 0 ∧
    (sd_bus_send 7 1 1 busWrap mPlain true).2.2.1 = some 0 := by decide

end SdBus

namespace SdBus

/-! ## Claim C6 -/

/-- Helper: shape of `process_timeout` when the prioq top has expired. -/
theorem process_timeout_fired (cbRet : Nat → Int) (now : Nat) (bus : Bus)
    (c : ReplyCallback) (t : List ReplyCallback)
    (hq : bus.replyCallbacksPrioq = c :: t) (hct : c.timeout ≤ now) :
    process_timeout cbRet now bus =
      ((if cbRet c.cb < 0 then cbRet c.cb else 1),
       { bus with replyCallbacksPrioq := t,
                  replyCallbacks := hashmap_remove_reply bus.replyCallbacks c.serial },
       [timeoutInvocationOf c]) := by
  simp [process_timeout, prioq_peek, prioq_pop, hq, Nat.not_lt.mpr hct,
    bus_message_new_synthetic_error, timeoutInvocationOf]

/-- Helper: `process_timeout` invokes at most one callback. -/
theorem process_timeout_inv_le_one (cbRet : Nat → Int) (now : Nat) (bus : Bus) :
    (process_timeout cbRet now bus).2.2.length ≤ 1 := by
  unfold process_timeout
  cases h : prioq_peek bus.replyCallbacksPrioq with
  | none => simp
  | some c => by_cases hc : c.timeout > now <;> simp [hc]

/-- Helper: the timeout invocations a `process_running` pass reports are
exactly those of its leading `process_timeout` step, whatever the later
stages do. -/
theorem process_running_timeoutInv (cbRet : Nat → Int) (now : Nat)
    (wO : List (Int × Nat)) (rO : List (Int × Option Message))
    (pm : Bus → Message → Int × Bus) (replyRes : Int) (wantRet : Bool)
    (bus : Bus) :
    (process_running cbRet now wO rO pm replyRes wantRet bus).2.2.2.timeoutInv
      = (process_timeout cbRet now bus).2.2 := by
  unfold process_running
  rcases hpt : process_timeout cbRet now bus with ⟨r, b1, inv⟩
  dsimp only
  split
  · rfl
  · rcases hdw : dispatch_wqueue b1 0 wO with ⟨r2, b2, w⟩
    dsimp only
    split
    · rfl
    · rcases hdr : dispatch_rqueue b2 rO with ⟨r3, b3, om, rd⟩
      dsimp only
      split
      · rfl
      · cases om with
        | none => rfl
        | some msg =>
          dsimp only
          rcases hpm : pm b3 msg with ⟨r4, b4⟩
          dsimp only
          split
          · rfl
          · split
            · rfl
            · split
              · split <;> rfl
              · rfl

/-- Helper: looking up an absent key gives `none`. -/
theorem hashmap_get_none_of_not_mem (h : ReplyMap) (s : Nat)
    (hnm : s ∉ h.map Prod.fst) : hashmap_get_reply h s = none := by
  induction h with
  | nil => rfl
  | cons kv t ih =>
    simp only [List.map_cons, List.mem_cons] at hnm
    push_neg at hnm
    rw [hashmap_get_reply, List.find?_cons_of_neg]
    · exact ih hnm.2
    · simp [Ne.symm hnm.1]

/-- Helper: with no duplicate keys, removing a key makes it absent. -/
theorem hashmap_get_remove_none (h : ReplyMap) (s : Nat)
    (hnd : (h.map Prod.fst).Nodup) :
    hashmap_get_reply (hashmap_remove_reply h s) s = none := by
  induction h with
  | nil => rfl
  | cons kv t ih =>
    simp only [List.map_cons, List.nodup_cons] at hnd
    by_cases hk : kv.1 = s
    · rw [hashmap_remove_reply, List.eraseP_cons_of_pos (by simp [hk])]
      exact hashmap_get_none_of_not_mem t s (hk ▸ hnd.1)
    · rw [hashmap_remove_reply, List.eraseP_cons_of_neg (by simp [hk])]
      rw [hashmap_get_reply, List.find?_cons_of_neg]
      · exact ih hnd.2
      · simp [hk]

end SdBus

namespace SdBus

/-- Claim C6: in a Running/Hello `process` call, timeout processing runs
before the write queue is drained and before any read: when the
earliest-deadline callback has expired, it is removed from both the
reply table and the prioq and invoked exactly once with a synthesized
method-error named `org.freedesktop.DBus.Error.Timeout`, the write and
read queues are untouched with no transport I/O and no handler-chain
dispatch, and the call returns 1 (the callback's error verbatim if it
returns one), so at most one expiration is handled per `process` call;
a top entry whose deadline is still in the future triggers no
invocation. -/
theorem claim_C6 (pid : Nat) (cbRet : Nat → Int) (now : Nat)
    (wO : List (Int × Nat)) (rO : List (Int × Option Message))
    (pm : Bus → Message → Int × Bus) (replyRes openRes authRes : Int)
    (wantRet : Bool) (bus : Bus)
    (hstate : bus.state = BusState.running ∨ bus.state = BusState.hello)
    (hpid : bus_pid_changed bus pid = false)
    (hproc : bus.processing = false)
    (hkeys : (bus.replyCallbacks.map Prod.fst).Nodup)
    (hqnd : bus.replyCallbacksPrioq.Nodup) :
    ∀ r bus2 om eff,
      sd_bus_process pid cbRet now wO rO pm replyRes openRes authRes wantRet bus
        = (r, bus2, om, eff) →
      ((∀ c, prioq_peek bus.replyCallbacksPrioq = some c → c.timeout ≤ now →
          eff.timeoutInv = [timeoutInvocationOf c] ∧
          bus2.replyCallbacksPrioq = prioq_pop bus.replyCallbacksPrioq ∧
          c ∉ bus2.replyCallbacksPrioq ∧
          bus2.replyCallbacks = hashmap_remove_reply bus.replyCallbacks c.serial ∧
          hashmap_get_reply bus2.replyCallbacks c.serial = none ∧
          bus2.wqueue = bus.wqueue ∧ bus2.rqueue = bus.rqueue ∧
          eff.writes = 0 ∧ eff.reads = 0 ∧ eff.dispatched = false ∧ om = none ∧
          (0 ≤ cbRet c.cb → r = 1) ∧ (cbRet c.cb < 0 → r = cbRet c.cb)) ∧
       (∀ c, prioq_peek bus.replyCallbacksPrioq = some c → now < c.timeout →
          eff.timeoutInv = []) ∧
       eff.timeoutInv.length ≤ 1) := by
  intro r bus2 om eff heq
  rcases hpr : process_running cbRet now wO rO pm replyRes wantRet
      { bus with processing := true } with ⟨r0, b20, om0, eff0⟩
  have hred : sd_bus_process pid cbRet now wO rO pm replyRes openRes authRes wantRet bus
      = (r0, { b20 with processing := false }, om0, eff0) := by
    rcases hstate with hs | hs
    · have hpr2 := hpr
      rw [show ({ bus with processing := true } : Bus)
          = { bus with state := BusState.running, processing := true } from by
        rw [← hs]] at hpr2
      simp [sd_bus_process, hpid, hproc, hs, hpr2]
    · have hpr2 := hpr
      rw [show ({ bus with processing := true } : Bus)
          = { bus with state := BusState.hello, processing := true } from by
        rw [← hs]] at hpr2
      simp [sd_bus_process, hpid, hproc, hs, hpr2]
  rw [hred] at heq
  simp only [Prod.mk.injEq] at heq
  obtain ⟨h1, h2, h3, h4⟩ := heq
  subst h1 h2 h3 h4
  refine ⟨?_, ?_, ?_⟩
  · -- an expired top entry
    intro c hc hct
    obtain ⟨t, hq⟩ : ∃ t, bus.replyCallbacksPrioq = c :: t := by
      cases hqq : bus.replyCallbacksPrioq with
      | nil => rw [hqq] at hc; simp [prioq_peek] at hc
      | cons a t =>
        rw [hqq] at hc
        simp [prioq_peek] at hc
        exact ⟨t, by rw [hc]⟩
    have hfired := process_timeout_fired cbRet now { bus with processing := true }
      c t (by simpa using hq) hct
    have hR : (if cbRet c.cb < 0 then cbRet c.cb else 1) ≠ 0 := by
      split
      · omega
      · omega
    have hcomp : process_running cbRet now wO rO pm replyRes wantRet
        { bus with processing := true }
        = ((if cbRet c.cb < 0 then cbRet c.cb else 1),
           { bus with
              processing := true
              replyCallbacksPrioq := t
              replyCallbacks := hashmap_remove_reply bus.replyCallbacks c.serial },
           none,
           { timeoutInv := [timeoutInvocationOf c] }) := by
      unfold process_running
      rw [hfired]
      simp [bne_iff_ne, hR]
    rw [hcomp] at hpr
    simp only [Prod.mk.injEq] at hpr
    obtain ⟨hr0, hb20, hom0, heff0⟩ := hpr
    subst hb20 hom0 heff0
    have hcnotin : c ∉ t := by
      rw [hq] at hqnd
      exact (List.nodup_cons.mp hqnd).1
    refine ⟨rfl, by simp [hq, prioq_pop], by simpa using hcnotin, by simp, ?_,
      by simp, by simp, rfl, rfl, rfl, rfl, ?_, ?_⟩
    · simpa using hashmap_get_remove_none bus.replyCallbacks c.serial hkeys
    · intro hge
      rw [← hr0]
      simp [Int.not_lt.mpr hge]
    · intro hlt
      rw [← hr0]
      simp [hlt]
  · -- a top entry still in the future
    intro c hc hct
    have hti := process_running_timeoutInv cbRet now wO rO pm replyRes wantRet
      { bus with processing := true }
    rw [hpr] at hti
    have hpt : (process_timeout cbRet now { bus with processing := true }).2.2 = [] := by
      unfold process_timeout
      have : prioq_peek ({ bus with processing := true }).replyCallbacksPrioq = some c := by
        simpa using hc
      rw [this]
      simp [hct]
    simpa [hpt] using hti
  · -- at most one expiration per call
    have hti := process_running_timeoutInv cbRet now wO rO pm replyRes wantRet
      { bus with processing := true }
    rw [hpr] at hti
    simp only at hti
    rw [hti]
    exact process_timeout_inv_le_one cbRet now { bus with processing := true }

end SdBus

namespace SdBus

/-- Witness for C6 at concrete inputs: on `busT` (one callback with
deadline 50) a `process` call at time 100 invokes exactly the Timeout
invocation for `cbT` and returns 1. -/
theorem claim_C6_witness :
    (sd_bus_process 7 (fun _ => 0) 100 [] [] (fun b _ => (0, b)) 0 0 0 false
      busT).2.2.2.timeoutInv = [timeoutInvocationOf cbT] ∧
    (sd_bus_process 7 (fun _ => 0) 100 [] [] (fun b _ => (0, b)) 0 0 0 false
      busT).1 = 1 := by
  have h := claim_C6 7 (fun _ => 0) 100 [] [] (fun b _ => (0, b)) 0 0 0 false busT
    (Or.inl rfl) (by decide) (by decide) (by decide) (by decide)
  have h2 := (h _ _ _ _ rfl).1 cbT (by decide) (by decide)
  obtain ⟨ha, -, -, -, -, -, -, -, -, -, -, hb, -⟩ := h2
  exact ⟨ha, hb (by decide)⟩

end SdBus

namespace SdBus

/-! ## Claim C7 -/

/-- Helper: removing the key at the head of the reply table. -/
theorem hashmap_remove_head (S : Nat) (x : ReplyCallback) (orig : ReplyMap) :
    hashmap_remove_reply ((S, x) :: orig) S = orig := by
  simp [hashmap_remove_reply, List.eraseP_cons_of_pos]

/-- Helper: looking up the key at the head of the reply table. -/
theorem hashmap_get_head (S : Nat) (x : ReplyCallback) (orig : ReplyMap) :
    hashmap_get_reply ((S, x) :: orig) S = some x := by
  simp [hashmap_get_reply, List.find?_cons_of_pos]

/-- Helper: cancelling a callback sitting at the head of the reply
table removes it and, when it has a deadline, erases it from the
prioq. -/
theorem cancel_head (pid : Nat) (b : Bus) (S : Nat) (c0 : ReplyCallback)
    (orig : ReplyMap) (hmap : b.replyCallbacks = (S, c0) :: orig)
    (hS : S ≠ 0) (hpid : bus_pid_changed b pid = false) :
    sd_bus_send_with_reply_cancel pid b S =
      (1, if c0.timeout != 0 then
            { b with replyCallbacks := orig,
                     replyCallbacksPrioq := prioq_remove c0 b.replyCallbacksPrioq }
          else { b with replyCallbacks := orig }) := by
  simp only [sd_bus_send_with_reply_cancel, hmap, hashmap_get_head,
    hashmap_remove_head, beq_iff_eq, hS, if_false, hpid, Bool.false_eq_true]

/-- Helper: removing a freshly inserted callback from the prioq gives
back the original queue. -/
theorem prioq_remove_put (c : ReplyCallback) (q : List ReplyCallback)
    (h : c ∉ q) : prioq_remove c (prioq_put c q) = q := by
  induction q with
  | nil => simp [prioq_put, prioq_remove]
  | cons a t ih =>
    have hca : ¬ ((a == c) = true) := by
      simp only [beq_iff_eq]
      intro he
      exact h (he ▸ List.mem_cons_self a t)
    rw [prioq_put]
    have hca3 : (a == c) = false := by
      cases hab : a == c
      · rfl
      · exact absurd hab hca
    by_cases hcmp : timeout_compare c a < 0
    · rw [if_pos hcmp]
      simp [prioq_remove, List.eraseP_cons]
    · rw [if_neg hcmp]
      simp only [prioq_remove, List.eraseP_cons, hca3, cond_false]
      have ht := ih (fun hm => h (List.mem_cons_of_mem a hm))
      rw [prioq_remove] at ht
      rw [ht]

end SdBus

namespace SdBus

/-- Claim C7: when `sd_bus_send_with_reply` fails (returns a negative
errno) after having installed the reply callback for the assigned
serial, the rollback removes the entry again: the returned bus has no
reply-callback table entry for that serial and no prioq entry carrying
it, so no callback can later fire for the failed call.  The hypotheses
say the serial was fresh (absent from both structures beforehand) and
nonzero, which hold on any bus whose wrap has not collided. -/
theorem claim_C7 (pid now : Nat) (prioqOk : Bool) (wres : Int) (widx : Nat)
    (bus : Bus) (m : Message) (cb ud : Nat) (usec : Option Nat) (want : Bool)
    (hfresh : hashmap_get_reply bus.replyCallbacks (assigned_serial bus m) = none)
    (hfreshq : ∀ c ∈ bus.replyCallbacksPrioq, c.serial ≠ assigned_serial bus m)
    (hs0 : assigned_serial bus m ≠ 0) :
    ∀ r bus2 out,
      sd_bus_send_with_reply pid now prioqOk wres widx bus m cb ud usec want
        = (r, bus2, out) → r < 0 →
      hashmap_get_reply bus2.replyCallbacks (assigned_serial bus m) = none ∧
      ∀ c ∈ bus2.replyCallbacksPrioq, c.serial ≠ assigned_serial bus m := by
  intro r bus2 out heq hneg
  by_cases hopen : BUS_IS_OPEN bus.state = true
  case neg =>
    rw [Bool.not_eq_true] at hopen
    simp only [sd_bus_send_with_reply, hopen, Bool.not_false, if_true] at heq
    injection heq with h1 h23
    injection h23 with h2 h3
    subst h2
    exact ⟨hfresh, hfreshq⟩
  case pos =>
  by_cases hcb : (cb == 0) = true
  case pos =>
    simp only [sd_bus_send_with_reply, hopen, Bool.not_true, Bool.false_eq_true,
      if_false, hcb, if_true] at heq
    injection heq with h1 h23
    injection h23 with h2 h3
    subst h2
    exact ⟨hfresh, hfreshq⟩
  case neg =>
  rw [Bool.not_eq_true] at hcb
  by_cases htype : (m.type != MsgType.methodCall) = true
  case pos =>
    simp only [sd_bus_send_with_reply, hopen, Bool.not_true, Bool.false_eq_true,
      if_false, hcb, htype, if_true] at heq
    injection heq with h1 h23
    injection h23 with h2 h3
    subst h2
    exact ⟨hfresh, hfreshq⟩
  case neg =>
  rw [Bool.not_eq_true] at htype
  by_cases hflag : (m.flags &&& SD_BUS_MESSAGE_NO_REPLY_EXPECTED != 0) = true
  case pos =>
    simp only [sd_bus_send_with_reply, hopen, Bool.not_true, Bool.false_eq_true,
      if_false, hcb, htype, hflag, if_true] at heq
    injection heq with h1 h23
    injection h23 with h2 h3
    subst h2
    exact ⟨hfresh, hfreshq⟩
  case neg =>
  rw [Bool.not_eq_true] at hflag
  by_cases hpid : bus_pid_changed bus pid = true
  case pos =>
    simp only [sd_bus_send_with_reply, hopen, Bool.not_true, Bool.false_eq_true,
      if_false, hcb, htype, hflag, hpid, if_true] at heq
    injection heq with h1 h23
    injection h23 with h2 h3
    subst h2
    exact ⟨hfresh, hfreshq⟩
  case neg =>
  rw [Bool.not_eq_true] at hpid
  simp only [sd_bus_send_with_reply, hopen, Bool.not_true, Bool.false_eq_true,
    if_false, hcb, htype, hflag, hpid] at heq
  by_cases hv : m.headerVersion > bus.messageVersion
  case pos =>
    have hsmv : bus_seal_message bus m = (-EPERM, bus, m) := by
      simp [bus_seal_message, hv]
    have hneg1 : (-EPERM : Int) < 0 := by norm_num [EPERM]
    simp only [hsmv, hneg1, if_true] at heq
    injection heq with h1 h23
    injection h23 with h2 h3
    subst h2
    exact ⟨hfresh, hfreshq⟩
  case neg =>
  obtain ⟨B1, M1, hsm, hB1map, hB1q, hB1pid, hB1state, hB1ver, hB1wq, hB1kern,
      hB1can, hM1serial, hM1sealed, hM1ver, hM1fds, hM1ds, hM1size⟩ :
      ∃ B1 M1, bus_seal_message bus m = (0, B1, M1) ∧
        B1.replyCallbacks = bus.replyCallbacks ∧
        B1.replyCallbacksPrioq = bus.replyCallbacksPrioq ∧
        B1.originalPid = bus.originalPid ∧
        B1.state = bus.state ∧
        B1.messageVersion = bus.messageVersion ∧
        B1.wqueue = bus.wqueue ∧
        B1.isKernel = bus.isKernel ∧
        B1.canFds = bus.canFds ∧
        M1.serial = assigned_serial bus m ∧
        M1.sealed = true ∧
        M1.headerVersion = m.headerVersion ∧
        M1.nFds = m.nFds ∧
        M1.dontSend = m.dontSend ∧
        M1.size = m.size := by
    by_cases hm : m.sealed = true
    · exact ⟨bus, m, by simp [bus_seal_message, hv, hm], rfl, rfl, rfl, rfl, rfl,
        rfl, rfl, rfl, by simp [assigned_serial, hm], hm, rfl, rfl, rfl, rfl⟩
    · rw [Bool.not_eq_true] at hm
      exact ⟨{ bus with serial := (bus.serial + 1) % SERIAL_MOD },
        bus_message_seal m ((bus.serial + 1) % SERIAL_MOD),
        by simp [bus_seal_message, hv, hm], rfl, rfl, rfl, rfl, rfl, rfl, rfl,
        rfl, by simp [bus_message_seal, assigned_serial, hm], rfl, rfl, rfl,
        rfl, rfl⟩
  have h00 : ¬ ((0 : Int) < 0) := by norm_num
  have h10 : ¬ ((1 : Int) < 0) := by norm_num
  simp only [hsm, h00, if_false, BUS_MESSAGE_SERIAL, hM1serial, hB1map,
    hashmap_put_reply, hfresh, Option.isSome_none, Bool.false_eq_true, if_false,
    h10] at heq
  have hpid2 : (bus.originalPid != pid) = false := hpid
  have hs0b : (assigned_serial bus m == 0) = false := beq_eq_false_iff_ne.mpr hs0
  have hns : (-ENOTSUP : Int) < 0 := by norm_num [ENOTSUP]
  have hnb : (-ENOBUFS : Int) < 0 := by norm_num [ENOBUFS]
  by_cases hto : calc_elapse now usec = 0
  case pos =>
    simp only [hto, bne_self_eq_false, Bool.false_and, Bool.false_eq_true,
      if_false] at heq
    by_cases hnf : (0 < m.nFds ∧ bus.canFds = false)
    case pos =>
      simp [sd_bus_send, bus_seal_message, bus_pid_changed, hB1state, hB1pid,
        hB1can, hB1kern, hB1wq, hB1ver, hM1sealed, hM1ver, hM1fds, hM1ds,
        hM1size, hM1serial, hopen, hpid2, hv, hnf, hns, BUS_MESSAGE_SIZE,
        BUS_MESSAGE_SERIAL, sd_bus_send_with_reply_cancel, hs0,
        hashmap_get_head, hashmap_remove_head] at heq
      obtain ⟨h1, h2, h3⟩ := heq
      subst h2
      refine ⟨by simpa using hfresh, ?_⟩
      intro c hc
      exact hfreshq c (by simpa [hB1q] using hc)
    case neg =>
      by_cases hds : (m.dontSend = true ∧ want = false)
      case pos =>
        simp [sd_bus_send, bus_seal_message, bus_pid_changed, hB1state, hB1pid,
          hB1can, hB1kern, hB1wq, hB1ver, hM1sealed, hM1ver, hM1fds, hM1ds,
          hM1size, hM1serial, hopen, hpid2, hv, hnf, hds, h00, BUS_MESSAGE_SIZE,
          BUS_MESSAGE_SERIAL] at heq
        obtain ⟨h1, h2, h3⟩ := heq
        omega
      case neg =>
        by_cases hfp : ((bus.state = BusState.running ∨ bus.state = BusState.hello)
            ∧ bus.wqueue = [])
        case pos =>
          by_cases hw : wres < 0
          case pos =>
            simp [sd_bus_send, bus_seal_message, bus_pid_changed, hB1state,
              hB1pid, hB1can, hB1kern, hB1wq, hB1ver, hM1sealed, hM1ver, hM1fds,
              hM1ds, hM1size, hM1serial, hopen, hpid2, hv, hnf, hds, hfp, hw,
              BUS_MESSAGE_SIZE, BUS_MESSAGE_SERIAL, sd_bus_send_with_reply_cancel,
              hs0, hashmap_get_head, hashmap_remove_head] at heq
            obtain ⟨h1, h2, h3⟩ := heq
            subst h2
            refine ⟨by simpa using hfresh, ?_⟩
            intro c hc
            exact hfreshq c (by simpa [hB1q] using hc)
          case neg =>
            by_cases hpart : (bus.isKernel = false ∧ widx < m.size)
            case pos =>
              simp [sd_bus_send, bus_seal_message, bus_pid_changed, hB1state,
                hB1pid, hB1can, hB1kern, hB1wq, hB1ver, hM1sealed, hM1ver,
                hM1fds, hM1ds, hM1size, hM1serial, hopen, hpid2, hv, hnf, hds,
                hfp, hw, hpart, BUS_MESSAGE_SIZE, BUS_MESSAGE_SERIAL] at heq
              obtain ⟨h1, h2, h3⟩ := heq
              omega
            case neg =>
              simp [sd_bus_send, bus_seal_message, bus_pid_changed, hB1state,
                hB1pid, hB1can, hB1kern, hB1wq, hB1ver, hM1sealed, hM1ver,
                hM1fds, hM1ds, hM1size, hM1serial, hopen, hpid2, hv, hnf, hds,
                hfp, hw, hpart, BUS_MESSAGE_SIZE, BUS_MESSAGE_SERIAL] at heq
              obtain ⟨h1, h2, h3⟩ := heq
              omega
        case neg =>
          by_cases hbuf : BUS_WQUEUE_MAX ≤ bus.wqueue.length
          case pos =>
            simp [sd_bus_send, bus_seal_message, bus_pid_changed, hB1state,
              hB1pid, hB1can, hB1kern, hB1wq, hB1ver, hM1sealed, hM1ver, hM1fds,
              hM1ds, hM1size, hM1serial, hopen, hpid2, hv, hnf, hds, hfp, hbuf,
              hnb, BUS_MESSAGE_SIZE, BUS_MESSAGE_SERIAL,
              sd_bus_send_with_reply_cancel, hs0, hashmap_get_head,
              hashmap_remove_head] at heq
            obtain ⟨h1, h2, h3⟩ := heq
            subst h2
            refine ⟨by simpa using hfresh, ?_⟩
            intro c hc
            exact hfreshq c (by simpa [hB1q] using hc)
          case neg =>
            simp [sd_bus_send, bus_seal_message, bus_pid_changed, hB1state,
              hB1pid, hB1can, hB1kern, hB1wq, hB1ver, hM1sealed, hM1ver, hM1fds,
              hM1ds, hM1size, hM1serial, hopen, hpid2, hv, hnf, hds, hfp, hbuf,
              BUS_MESSAGE_SIZE, BUS_MESSAGE_SERIAL] at heq
            obtain ⟨h1, h2, h3⟩ := heq
            omega
  case neg =>
    have hto2 : (calc_elapse now usec != 0) = true := bne_iff_ne.mpr hto
    by_cases hpo : prioqOk = true
    case pos =>
      have hnotin : (⟨cb, ud, assigned_serial bus m, calc_elapse now usec⟩ :
          ReplyCallback) ∉ bus.replyCallbacksPrioq := fun hm2 => hfreshq _ hm2 rfl
      have hrp := prioq_remove_put
        (⟨cb, ud, assigned_serial bus m, calc_elapse now usec⟩ : ReplyCallback)
        bus.replyCallbacksPrioq hnotin
      simp only [hto2, hpo, Bool.not_true, Bool.and_false, Bool.false_eq_true,
        if_false, if_true] at heq
      by_cases hnf : (0 < m.nFds ∧ bus.canFds = false)
      case pos =>
        simp [sd_bus_send, bus_seal_message, bus_pid_changed, hB1state, hB1pid,
          hB1can, hB1kern, hB1wq, hB1ver, hB1q, hM1sealed, hM1ver, hM1fds,
          hM1ds, hM1size, hM1serial, hopen, hpid2, hv, hnf, hns, hto2, hrp,
          BUS_MESSAGE_SIZE, BUS_MESSAGE_SERIAL, sd_bus_send_with_reply_cancel,
          hs0, hashmap_get_head, hashmap_remove_head] at heq
        obtain ⟨h1, h2, h3⟩ := heq
        subst h2
        refine ⟨by simpa using hfresh, ?_⟩
        intro c hc
        exact hfreshq c (by simpa [hB1q, hrp] using hc)
      case neg =>
        by_cases hds : (m.dontSend = true ∧ want = false)
        case pos =>
          simp [sd_bus_send, bus_seal_message, bus_pid_changed, hB1state,
            hB1pid, hB1can, hB1kern, hB1wq, hB1ver, hB1q, hM1sealed, hM1ver,
            hM1fds, hM1ds, hM1size, hM1serial, hopen, hpid2, hv, hnf, hds, h00,
            BUS_MESSAGE_SIZE, BUS_MESSAGE_SERIAL] at heq
          obtain ⟨h1, h2, h3⟩ := heq
          omega
        case neg =>
          by_cases hfp : ((bus.state = BusState.running ∨
              bus.state = BusState.hello) ∧ bus.wqueue = [])
          case pos =>
            by_cases hw : wres < 0
            case pos =>
              simp [sd_bus_send, bus_seal_message, bus_pid_changed, hB1state,
                hB1pid, hB1can, hB1kern, hB1wq, hB1ver, hB1q, hM1sealed, hM1ver,
                hM1fds, hM1ds, hM1size, hM1serial, hopen, hpid2, hv, hnf, hds,
                hfp, hw, hto2, hrp, BUS_MESSAGE_SIZE, BUS_MESSAGE_SERIAL,
                sd_bus_send_with_reply_cancel, hs0, hashmap_get_head,
                hashmap_remove_head] at heq
              obtain ⟨h1, h2, h3⟩ := heq
              subst h2
              refine ⟨by simpa using hfresh, ?_⟩
              intro c hc
              exact hfreshq c (by simpa [hB1q, hrp] using hc)
            case neg =>
              by_cases hpart : (bus.isKernel = false ∧ widx < m.size)
              case pos =>
                simp [sd_bus_send, bus_seal_message, bus_pid_changed, hB1state,
                  hB1pid, hB1can, hB1kern, hB1wq, hB1ver, hB1q, hM1sealed,
                  hM1ver, hM1fds, hM1ds, hM1size, hM1serial, hopen, hpid2, hv,
                  hnf, hds, hfp, hw, hpart, BUS_MESSAGE_SIZE,
                  BUS_MESSAGE_SERIAL] at heq
                obtain ⟨h1, h2, h3⟩ := heq
                omega
              case neg =>
                simp [sd_bus_send, bus_seal_message, bus_pid_changed, hB1state,
                  hB1pid, hB1can, hB1kern, hB1wq, hB1ver, hB1q, hM1sealed,
                  hM1ver, hM1fds, hM1ds, hM1size, hM1serial, hopen, hpid2, hv,
                  hnf, hds, hfp, hw, hpart, BUS_MESSAGE_SIZE,
                  BUS_MESSAGE_SERIAL] at heq
                obtain ⟨h1, h2, h3⟩ := heq
                omega
          case neg =>
            by_cases hbuf : BUS_WQUEUE_MAX ≤ bus.wqueue.length
            case pos =>
              simp [sd_bus_send, bus_seal_message, bus_pid_changed, hB1state,
                hB1pid, hB1can, hB1kern, hB1wq, hB1ver, hB1q, hM1sealed, hM1ver,
                hM1fds, hM1ds, hM1size, hM1serial, hopen, hpid2, hv, hnf, hds,
                hfp, hbuf, hnb, hto2, hrp, BUS_MESSAGE_SIZE, BUS_MESSAGE_SERIAL,
                sd_bus_send_with_reply_cancel, hs0, hashmap_get_head,
                hashmap_remove_head] at heq
              obtain ⟨h1, h2, h3⟩ := heq
              subst h2
              refine ⟨by simpa using hfresh, ?_⟩
              intro c hc
              exact hfreshq c (by simpa [hB1q, hrp] using hc)
            case neg =>
              simp [sd_bus_send, bus_seal_message, bus_pid_changed, hB1state,
                hB1pid, hB1can, hB1kern, hB1wq, hB1ver, hB1q, hM1sealed, hM1ver,
                hM1fds, hM1ds, hM1size, hM1serial, hopen, hpid2, hv, hnf, hds,
                hfp, hbuf, BUS_MESSAGE_SIZE, BUS_MESSAGE_SERIAL] at heq
              obtain ⟨h1, h2, h3⟩ := heq
              omega
    case neg =>
      rw [Bool.not_eq_true] at hpo
      simp only [hto2, hpo, Bool.not_false, Bool.and_true, if_true] at heq
      simp [sd_bus_send_with_reply_cancel, bus_pid_changed, hs0, hpid2, hB1q,
        hB1pid, hashmap_get_head, hashmap_remove_head] at heq
      obtain ⟨h1, h2, h3⟩ := heq
      subst h2
      refine ⟨by simpa using hfresh, ?_⟩
      intro c hc
      exact hfreshq c (by simpa [hB1q] using hc)

/-- Witness for C7: a concrete failing call (the prioq insertion fails,
the C returns `-ENOMEM`) leaves no reply-table entry for the assigned
serial. -/
theorem claim_C7_witness :
    hashmap_get_reply
      (sd_bus_send_with_reply 7 0 false 1 1 busRun mPlain 3 0 (some 10)
        true).2.1.replyCallbacks (assigned_serial busRun mPlain) = none := by
  have h := claim_C7 7 0 false 1 1 busRun mPlain 3 0 (some 10) true
    (by decide) (by decide) (by decide)
  exact (h _ _ _ rfl (by decide)).1

end SdBus
